import Mathlib

/-!  Verification development for the Z80 CPU simulator core (z80.h).

The execution handler set, the instruction decoder and the processor state
of the source are embedded shallowly: each C++ handler of the `processor`
template becomes a Lean function on `Z80.State`.  Paths that reach
`assert(0)` or `std::abort()` in the source (the HALT slot, the 8-bit
ADC/SBC stubs, the CB rotate group, unknown opcodes) are modelled as
`Option.none`.  Machine integers (`fast_u8`, `fast_u16`) are modelled as
`Nat`, with the maskings the source performs (`& mask8`, `& mask16`, the
byte truncation of memory cells) made explicit.  The source's `prefix`
decoder field is rendered `pfx` because `prefix` is a Lean keyword.
-/

namespace Z80

/-- Register operand codes, mirroring `enum class reg`
(B, C, D, E, H, L, (HL), A in z-field order). -/
inductive Reg
  | b | c | d | e | h | l | at_hl | a
deriving DecidableEq

/-- Register pairs, mirroring `enum class regp` (BC, DE, HL, SP). -/
inductive RegP
  | bc | de | hl | sp
deriving DecidableEq

/-- Register pairs, mirroring `enum class regp2` (BC, DE, HL, AF). -/
inductive RegP2
  | bc | de | hl | af
deriving DecidableEq

/-- Index register pair kind, mirroring `enum class index_regp`. -/
inductive IndexRP
  | hl | ix | iy
deriving DecidableEq

/-- Decoder instruction state, mirroring `enum class instruction_prefix`
(none, cb, ed). -/
inductive Pfx
  | none | cb | ed
deriving DecidableEq

/-- ALU operation selector, mirroring `enum class alu`. -/
inductive Alu
  | add | adc | sub | sbc | and_a | xor_a | or_a | cp
deriving DecidableEq

/-- Block load kind, mirroring `enum class block_ld` (LDI, LDD, LDIR, LDDR). -/
inductive BlockLd
  | ldi | ldd | ldir | lddr
deriving DecidableEq

/-- Condition codes, mirroring `enum condition` (NZ, Z, NC, C, PO, PE, P, M). -/
inductive Cond
  | nz | z | nc | c | po | pe | p | m
deriving DecidableEq

/-- Numeric value of a block-load kind (the C++ enum value). -/
def BlockLd.toNat : BlockLd → Nat
  | .ldi => 0
  | .ldd => 1
  | .ldir => 2
  | .lddr => 3

/-- Numeric value of a condition code (the C++ enum value). -/
def Cond.toNat : Cond → Nat
  | .nz => 0
  | .z => 1
  | .nc => 2
  | .c => 3
  | .po => 4
  | .pe => 5
  | .p => 6
  | .m => 7

/-- Decoding of a 3-bit z/y field into a register operand
(the C++ `static_cast<reg>`). -/
def regOf (n : Nat) : Reg :=
  match n with
  | 0 => .b
  | 1 => .c
  | 2 => .d
  | 3 => .e
  | 4 => .h
  | 5 => .l
  | 6 => .at_hl
  | _ => .a

/-- Decoding of a 2-bit p field into a register pair
(the C++ `static_cast<regp>`). -/
def rpOf (n : Nat) : RegP :=
  match n with
  | 0 => .bc
  | 1 => .de
  | 2 => .hl
  | _ => .sp

/-- Decoding of a 2-bit p field into a regp2 pair
(the C++ `static_cast<regp2>`). -/
def rp2Of (n : Nat) : RegP2 :=
  match n with
  | 0 => .bc
  | 1 => .de
  | 2 => .hl
  | _ => .af

/-- Decoding of a 3-bit y field into an ALU operation
(the C++ `static_cast<alu>`). -/
def aluOf (n : Nat) : Alu :=
  match n with
  | 0 => .add
  | 1 => .adc
  | 2 => .sub
  | 3 => .sbc
  | 4 => .and_a
  | 5 => .xor_a
  | 6 => .or_a
  | _ => .cp

/-- Decoding of `y - 4` into a block-load kind
(the C++ `static_cast<block_ld>(y - 4)`). -/
def blkOf (n : Nat) : BlockLd :=
  match n with
  | 0 => .ldi
  | 1 => .ldd
  | 2 => .ldir
  | _ => .lddr

/-- Decoding of a 3-bit y field into a condition code
(the C++ `static_cast<condition>`). -/
def condOf (n : Nat) : Cond :=
  match n with
  | 0 => .nz
  | 1 => .z
  | 2 => .nc
  | 3 => .c
  | 4 => .po
  | 5 => .pe
  | 6 => .p
  | _ => .m

/-- Flag bit masks of F (processor_base): S Z Y H X P N C. -/
def sf_mask : Nat := 128

/-- Zero flag mask. -/
def zf_mask : Nat := 64

/-- Y (bit 5 copy) flag mask. -/
def yf_mask : Nat := 32

/-- Half-carry flag mask. -/
def hf_mask : Nat := 16

/-- X (bit 3 copy) flag mask. -/
def xf_mask : Nat := 8

/-- Parity/overflow flag mask. -/
def pf_mask : Nat := 4

/-- Subtract flag mask. -/
def nf_mask : Nat := 2

/-- Carry flag mask. -/
def cf_mask : Nat := 1

/-- Mirrors `get_sign8`: tests bit 7 of a byte. -/
def get_sign8 (n : Nat) : Bool := (n &&& 128) != 0

/-- Mirrors `add8`: byte addition wrapping at 2^8 (`(a + b) & mask8`). -/
def add8 (a b : Nat) : Nat := (a + b) &&& 255

/-- Mirrors `sub8`: the C++ unsigned wrap-around `(a - b) & mask8`;
written with an added multiple of 2^8 so the Nat subtraction cannot
truncate (the added term is invisible modulo 2^8). -/
def sub8 (a b : Nat) : Nat := (a + 256 - (b &&& 255)) &&& 255

/-- Mirrors `inc8`. -/
def inc8 (n : Nat) : Nat := add8 n 1

/-- Mirrors `dec8`. -/
def dec8 (n : Nat) : Nat := sub8 n 1

/-- Mirrors `ror8`: rotate a byte right one position. -/
def ror8 (n : Nat) : Nat := ((n >>> 1) ||| (n <<< 7)) &&& 255

/-- Mirrors `neg8`: two's complement of a byte. -/
def neg8 (n : Nat) : Nat := ((n ^^^ 255) + 1) &&& 255

/-- Mirrors `get_low8`. -/
def get_low8 (n : Nat) : Nat := n &&& 255

/-- Mirrors `get_high8`. -/
def get_high8 (n : Nat) : Nat := (n >>> 8) &&& 255

/-- Mirrors `make16`: `(hi << 8) | lo`. -/
def make16 (hi lo : Nat) : Nat := (hi <<< 8) ||| lo

/-- Mirrors `add16`: word addition wrapping at 2^16 (`(a + b) & mask16`). -/
def add16 (a b : Nat) : Nat := (a + b) &&& 65535

/-- Mirrors `sub16`: the C++ unsigned wrap-around `(a - b) & mask16`;
written with an added multiple of 2^16 so the Nat subtraction cannot
truncate. -/
def sub16 (a b : Nat) : Nat := (a + 65536 - (b &&& 65535)) &&& 65535

/-- Mirrors `inc16`. -/
def inc16 (n : Nat) : Nat := add16 n 1

/-- Mirrors `dec16`. -/
def dec16 (n : Nat) : Nat := sub16 n 1

/-- Mirrors `zf_ari`. -/
def zf_ari (n : Nat) : Nat := if n = 0 then zf_mask else 0

/-- Mirrors `hf_ari`: bit-4 carry between nibbles. -/
def hf_ari (r a b : Nat) : Nat := (r ^^^ a ^^^ b) &&& hf_mask

/-- Mirrors `hf_dec`. -/
def hf_dec (n : Nat) : Nat := if n &&& 15 = 15 then hf_mask else 0

/-- Mirrors `hf_inc`. -/
def hf_inc (n : Nat) : Nat := if n &&& 15 = 0 then hf_mask else 0

/-- Mirrors `pf_ari`: signed-overflow parity bit from `x = r ^ a ^ b`.
The callers pass the unmasked result `r` so that bit 8 (the carry) is
visible, exactly as in the C++ where the subexpressions are computed in a
type wider than 8 bits. -/
def pf_ari (r a b : Nat) : Nat :=
  (((r ^^^ a ^^^ b) >>> 6) ^^^ ((r ^^^ a ^^^ b) >>> 5)) &&& pf_mask

/-- Mirrors `pf_log4`: parity of a nibble via the 0x9669 table. -/
def pf_log4 (n : Nat) : Bool := (38505 &&& (1 <<< (n &&& 15))) != 0

/-- Mirrors `pf_log`: even parity of a byte. -/
def pf_log (n : Nat) : Nat := if pf_log4 n = pf_log4 (n >>> 4) then pf_mask else 0

/-- Mirrors `pf_dec`. -/
def pf_dec (n : Nat) : Nat := if n = 127 then pf_mask else 0

/-- Mirrors `pf_inc`. -/
def pf_inc (n : Nat) : Nat := if n = 128 then pf_mask else 0

/-- Mirrors `cf_ari`. -/
def cf_ari (c : Bool) : Nat := if c then cf_mask else 0

/-- Processor plus decoder state: the fields of `processor_state` and
`decoder_state` plus the integrator-owned memory image and tick counter. -/
structure State where
  mem : Nat → Nat
  bc : Nat
  de : Nat
  hl : Nat
  af : Nat
  ix : Nat
  iy : Nat
  alt_bc : Nat
  alt_de : Nat
  alt_hl : Nat
  pc : Nat
  sp : Nat
  ir : Nat
  memptr : Nat
  iff1 : Bool
  iff2 : Bool
  int_mode : Nat
  disable_int : Bool
  last_read_addr : Nat
  ticks : Nat
  pfx : Pfx
  index_rp : IndexRP
  next_index_rp : IndexRP

/-- Reset state: `processor_state` and `decoder_state` constructors zero
every register, clear both interrupt flip-flops and `disable_int`, and
start with no instruction state and index pair HL; the integrator's tick
counter starts at zero and the memory image is all zero bytes. -/
def reset : State where
  mem := fun _ => 0
  bc := 0
  de := 0
  hl := 0
  af := 0
  ix := 0
  iy := 0
  alt_bc := 0
  alt_de := 0
  alt_hl := 0
  pc := 0
  sp := 0
  ir := 0
  memptr := 0
  iff1 := false
  iff2 := false
  int_mode := 0
  disable_int := false
  last_read_addr := 0
  ticks := 0
  pfx := .none
  index_rp := .hl
  next_index_rp := .hl

/-- Modelled from the spec: the 64 KiB byte-addressable memory array
(`memory_interface::on_access` and the tester's `at`, not under src) —
a read returns the byte stored at the 16-bit address. -/
def memRead (s : State) (addr : Nat) : Nat := s.mem (addr &&& 65535) &&& 255

/-- Modelled from the spec: a memory write stores the byte (the source's
`static_cast<least_u8>` truncation) at the 16-bit address. -/
def memWrite (s : State) (addr n : Nat) : State :=
  { s with mem := fun x => if x = addr &&& 65535 then n &&& 255 else s.mem x }

/-- Modelled from the spec: `tick(n)` advances the T-state counter by n
(`trivial_ticks_counter`, not under src). -/
def tick (n : Nat) (s : State) : State := { s with ticks := s.ticks + n }

/-- Mirrors `on_fetch_cycle`: 2+2 ticks around the refresh, records
`last_read_addr`. -/
def on_fetch_cycle (s : State) (addr : Nat) : Nat × State :=
  (memRead s addr,
   { s with ticks := s.ticks + 4, last_read_addr := addr &&& 65535 })

/-- Mirrors `processor::on_fetch`: fetch at PC and advance PC. -/
def on_fetch (s : State) : Nat × State :=
  ((on_fetch_cycle s s.pc).1,
   { (on_fetch_cycle s s.pc).2 with pc := inc16 s.pc })

/-- Mirrors `on_3t_read_cycle`. -/
def on_3t_read_cycle (s : State) (addr : Nat) : Nat × State :=
  (memRead s addr,
   { s with ticks := s.ticks + 3, last_read_addr := addr &&& 65535 })

/-- Mirrors `on_4t_read_cycle`. -/
def on_4t_read_cycle (s : State) (addr : Nat) : Nat × State :=
  (memRead s addr,
   { s with ticks := s.ticks + 4, last_read_addr := addr &&& 65535 })

/-- Mirrors `on_5t_read_cycle`. -/
def on_5t_read_cycle (s : State) (addr : Nat) : Nat × State :=
  (memRead s addr,
   { s with ticks := s.ticks + 5, last_read_addr := addr &&& 65535 })

/-- Mirrors `on_3t_write_cycle`. -/
def on_3t_write_cycle (s : State) (addr n : Nat) : State :=
  tick 3 (memWrite s addr n)

/-- Mirrors `on_5t_write_cycle`. -/
def on_5t_write_cycle (s : State) (addr n : Nat) : State :=
  tick 5 (memWrite s addr n)

/-- Mirrors `on_output_cycle`: 4 ticks, the port write itself is outside
the core. -/
def on_output_cycle (s : State) (_addr _b : Nat) : State := tick 4 s

/-- Mirrors `on_3t_imm8_read`. -/
def on_3t_imm8_read (s : State) : Nat × State :=
  ((on_3t_read_cycle s s.pc).1,
   { (on_3t_read_cycle s s.pc).2 with pc := inc16 s.pc })

/-- Mirrors `on_5t_imm8_read`. -/
def on_5t_imm8_read (s : State) : Nat × State :=
  ((on_5t_read_cycle s s.pc).1,
   { (on_5t_read_cycle s s.pc).2 with pc := inc16 s.pc })

/-- Mirrors `on_disp_read` (whose cycle `on_disp_read_cycle` is a 3-tick
read). -/
def on_disp_read (s : State) : Nat × State :=
  ((on_3t_read_cycle s s.pc).1,
   { (on_3t_read_cycle s s.pc).2 with pc := inc16 s.pc })

/-- Mirrors `on_3t_3t_imm16_read`: low byte first. -/
def on_3t_3t_imm16_read (s : State) : Nat × State :=
  (make16 ((on_3t_read_cycle ((on_3t_read_cycle s s.pc).2) (inc16 s.pc)).1)
          ((on_3t_read_cycle s s.pc).1),
   { (on_3t_read_cycle ((on_3t_read_cycle s s.pc).2) (inc16 s.pc)).2 with
       pc := inc16 (inc16 s.pc) })

/-- Mirrors `on_3t_4t_imm16_read`: low byte (3 ticks) then high byte
(4 ticks). -/
def on_3t_4t_imm16_read (s : State) : Nat × State :=
  (make16 ((on_4t_read_cycle ((on_3t_read_cycle s s.pc).2) (inc16 s.pc)).1)
          ((on_3t_read_cycle s s.pc).1),
   { (on_4t_read_cycle ((on_3t_read_cycle s s.pc).2) (inc16 s.pc)).2 with
       pc := inc16 (inc16 s.pc) })

/-- Mirrors `get_b`. -/
def get_b (s : State) : Nat := get_high8 s.bc

/-- Mirrors `get_c`. -/
def get_c (s : State) : Nat := get_low8 s.bc

/-- Mirrors `set_b`. -/
def set_b (s : State) (n : Nat) : State := { s with bc := make16 n (get_c s) }

/-- Mirrors `set_c`. -/
def set_c (s : State) (n : Nat) : State := { s with bc := make16 (get_b s) n }

/-- Mirrors `get_d`. -/
def get_d (s : State) : Nat := get_high8 s.de

/-- Mirrors `get_e`. -/
def get_e (s : State) : Nat := get_low8 s.de

/-- Mirrors `set_d`. -/
def set_d (s : State) (n : Nat) : State := { s with de := make16 n (get_e s) }

/-- Mirrors `set_e`. -/
def set_e (s : State) (n : Nat) : State := { s with de := make16 (get_d s) n }

/-- Mirrors `get_h`. -/
def get_h (s : State) : Nat := get_high8 s.hl

/-- Mirrors `get_l`. -/
def get_l (s : State) : Nat := get_low8 s.hl

/-- Mirrors `set_h`. -/
def set_h (s : State) (n : Nat) : State := { s with hl := make16 n (get_l s) }

/-- Mirrors `set_l`. -/
def set_l (s : State) (n : Nat) : State := { s with hl := make16 (get_h s) n }

/-- Mirrors `get_a`. -/
def get_a (s : State) : Nat := get_high8 s.af

/-- Mirrors `get_f`. -/
def get_f (s : State) : Nat := get_low8 s.af

/-- Mirrors `set_a`. -/
def set_a (s : State) (n : Nat) : State := { s with af := make16 n (get_f s) }

/-- Mirrors `set_f`. -/
def set_f (s : State) (n : Nat) : State := { s with af := make16 (get_a s) n }

/-- Mirrors `set_i` (I is the high byte of IR). -/
def set_i (s : State) (n : Nat) : State :=
  { s with ir := make16 n (get_low8 s.ir) }

/-- Mirrors `on_get_af` (reassembled from the byte halves). -/
def get_af16 (s : State) : Nat := make16 (get_a s) (get_f s)

/-- Mirrors `on_set_af`: low byte first. -/
def set_af16 (s : State) (nn : Nat) : State :=
  set_a (set_f s (get_low8 nn)) (get_high8 nn)

/-- Mirrors `on_get_bc`. -/
def get_bc16 (s : State) : Nat := make16 (get_b s) (get_c s)

/-- Mirrors `on_set_bc`: low byte first. -/
def set_bc16 (s : State) (nn : Nat) : State :=
  set_b (set_c s (get_low8 nn)) (get_high8 nn)

/-- Mirrors `on_get_de`. -/
def get_de16 (s : State) : Nat := make16 (get_d s) (get_e s)

/-- Mirrors `on_set_de`: low byte first. -/
def set_de16 (s : State) (nn : Nat) : State :=
  set_d (set_e s (get_low8 nn)) (get_high8 nn)

/-- Mirrors `on_get_hl`. -/
def get_hl16 (s : State) : Nat := make16 (get_h s) (get_l s)

/-- Mirrors `on_set_hl`: low byte first. -/
def set_hl16 (s : State) (nn : Nat) : State :=
  set_h (set_l s (get_low8 nn)) (get_high8 nn)

/-- Mirrors `on_get_ix` (reassembled from IXH/IXL). -/
def get_ix16 (s : State) : Nat := make16 (get_high8 s.ix) (get_low8 s.ix)

/-- Mirrors `on_set_ix`: low byte first. -/
def set_ix16 (s : State) (nn : Nat) : State :=
  { s with ix := make16 (get_high8 nn) (get_low8 nn) }

/-- Mirrors `on_get_iy`. -/
def get_iy16 (s : State) : Nat := make16 (get_high8 s.iy) (get_low8 s.iy)

/-- Mirrors `on_set_iy`: low byte first. -/
def set_iy16 (s : State) (nn : Nat) : State :=
  { s with iy := make16 (get_high8 nn) (get_low8 nn) }

/-- Mirrors `on_get_index_rp`: the pair selected by the current index
kind. -/
def on_get_index_rp (s : State) : Nat :=
  match s.index_rp with
  | .hl => get_hl16 s
  | .ix => get_ix16 s
  | .iy => get_iy16 s

/-- Mirrors `on_set_index_rp`. -/
def on_set_index_rp (s : State) (nn : Nat) : State :=
  match s.index_rp with
  | .hl => set_hl16 s nn
  | .ix => set_ix16 s nn
  | .iy => set_iy16 s nn

/-- Mirrors `get_disp_target`: base plus sign-extended displacement. -/
def get_disp_target (base d : Nat) : Nat :=
  if get_sign8 d then sub16 base (neg8 d) else add16 base d

/-- Mirrors `read_at_disp`: read the (HL)/(IX+d)/(IY+d) operand; for an
indexed access also latch the effective address into MEMPTR. -/
def read_at_disp (s : State) (d : Nat) (long : Bool) : Nat × State :=
  let addr := get_disp_target (on_get_index_rp s) d
  let v := if long then (on_4t_read_cycle s addr).1 else (on_3t_read_cycle s addr).1
  let s1 := if long then (on_4t_read_cycle s addr).2 else (on_3t_read_cycle s addr).2
  if s.index_rp ≠ IndexRP.hl then (v, { s1 with memptr := addr }) else (v, s1)

/-- Mirrors `write_at_disp`. -/
def write_at_disp (s : State) (d n : Nat) : State :=
  let addr := get_disp_target (on_get_index_rp s) d
  let s1 := on_3t_write_cycle s addr n
  if s.index_rp ≠ IndexRP.hl then { s1 with memptr := addr } else s1

/-- Mirrors `on_get_r` (with its displacement and long-read-cycle
arguments). -/
def on_get_r (s : State) (r : Reg) (d : Nat) (long : Bool) : Nat × State :=
  match r with
  | .b => (get_b s, s)
  | .c => (get_c s, s)
  | .d => (get_d s, s)
  | .e => (get_e s, s)
  | .h => (get_h s, s)
  | .l => (get_l s, s)
  | .at_hl => read_at_disp s d long
  | .a => (get_a s, s)

/-- Mirrors `on_set_r`. -/
def on_set_r (s : State) (r : Reg) (d n : Nat) : State :=
  match r with
  | .b => set_b s n
  | .c => set_c s n
  | .d => set_d s n
  | .e => set_e s n
  | .h => set_h s n
  | .l => set_l s n
  | .at_hl => write_at_disp s d n
  | .a => set_a s n

/-- Mirrors `on_get_rp` (HL slot goes through the index pair). -/
def on_get_rp (s : State) (rp : RegP) : Nat :=
  match rp with
  | .bc => get_bc16 s
  | .de => get_de16 s
  | .hl => on_get_index_rp s
  | .sp => s.sp

/-- Mirrors `on_set_rp`. -/
def on_set_rp (s : State) (rp : RegP) (nn : Nat) : State :=
  match rp with
  | .bc => set_bc16 s nn
  | .de => set_de16 s nn
  | .hl => on_set_index_rp s nn
  | .sp => { s with sp := nn }

/-- Mirrors `on_get_rp2`. -/
def on_get_rp2 (s : State) (rp : RegP2) : Nat :=
  match rp with
  | .bc => get_bc16 s
  | .de => get_de16 s
  | .hl => on_get_index_rp s
  | .af => get_af16 s

/-- Mirrors `on_set_rp2`. -/
def on_set_rp2 (s : State) (rp : RegP2) (nn : Nat) : State :=
  match rp with
  | .bc => set_bc16 s nn
  | .de => set_de16 s nn
  | .hl => on_set_index_rp s nn
  | .af => set_af16 s nn

/-- Mirrors `do_alu`: the 8-bit ALU core.  The ADC and SBC cases are
`assert(0)` stubs in the source and are modelled as `none`.  The second
`pf_ari` argument of the SUB/CP cases renders the C++ unsigned wrap-around
`a - n` with an added multiple of 2^16 (both operands are bytes at every
call site, and `pf_ari` only looks at bits 5..8 of the difference, which
agree at any width of at least 16 bits). -/
def do_alu (k : Alu) (n : Nat) (s : State) : Option State :=
  let a := get_a s
  match k with
  | .add =>
    let t := add8 a n
    let f := (t &&& (sf_mask ||| yf_mask ||| xf_mask)) ||| zf_ari t |||
      hf_ari t a n ||| pf_ari (a + n) a n ||| cf_ari (decide (t < a))
    some (set_f (set_a s t) f)
  | .adc => none
  | .sub =>
    let t := sub8 a n
    let f := (t &&& (sf_mask ||| yf_mask ||| xf_mask)) ||| zf_ari t |||
      hf_ari t a n ||| pf_ari (a + 65536 - n) a n |||
      cf_ari (decide (t > a)) ||| nf_mask
    some (set_f (set_a s t) f)
  | .sbc => none
  | .and_a =>
    let a1 := a &&& n
    let f := (a1 &&& (sf_mask ||| yf_mask ||| xf_mask)) ||| zf_ari a1 |||
      pf_log a1 ||| hf_mask
    some (set_f (set_a s a1) f)
  | .xor_a =>
    let a1 := a ^^^ n
    let f := (a1 &&& (sf_mask ||| yf_mask ||| xf_mask)) ||| zf_ari a1 ||| pf_log a1
    some (set_f (set_a s a1) f)
  | .or_a =>
    let a1 := a ||| n
    let f := (a1 &&& (sf_mask ||| yf_mask ||| xf_mask)) ||| zf_ari a1 ||| pf_log a1
    some (set_f (set_a s a1) f)
  | .cp =>
    let t := sub8 a n
    let f := (t &&& sf_mask) ||| zf_ari t ||| (n &&& (yf_mask ||| xf_mask)) |||
      hf_ari t a n ||| pf_ari (a + 65536 - n) a n |||
      cf_ari (decide (t > a)) ||| nf_mask
    some (set_f s f)

/-- Mirrors `get_flag_mask` (the `cc / 2` switch). -/
def get_flag_mask (cc : Cond) : Nat :=
  match cc.toNat / 2 with
  | 0 => zf_mask
  | 1 => cf_mask
  | 2 => pf_mask
  | _ => sf_mask

/-- Mirrors `check_condition`. -/
def check_condition (s : State) (cc : Cond) : Bool :=
  ((get_f s &&& get_flag_mask cc) != 0) == ((cc.toNat &&& 1) != 0)

/-- Mirrors `on_nop`. -/
def on_nop (s : State) : State := s

/-- Mirrors `on_noni_ed`: the decoded NONI slots do nothing. -/
def on_noni_ed (_op : Nat) (s : State) : State := s

/-- Mirrors `on_ld_r_r`. -/
def on_ld_r_r (rd rs : Reg) (d : Nat) (s : State) : State :=
  on_set_r ((on_get_r s rs d false).2) rd d ((on_get_r s rs d false).1)

/-- Mirrors `on_ld_r_n`. -/
def on_ld_r_n (r : Reg) (d n : Nat) (s : State) : State := on_set_r s r d n

/-- Mirrors `on_alu_r`. -/
def on_alu_r (k : Alu) (r : Reg) (d : Nat) (s : State) : Option State :=
  do_alu k ((on_get_r s r d false).1) ((on_get_r s r d false).2)

/-- Mirrors `on_alu_n`. -/
def on_alu_n (k : Alu) (n : Nat) (s : State) : Option State := do_alu k n s

/-- Mirrors `on_inc_r`. -/
def on_inc_r (r : Reg) (d : Nat) (s : State) : State :=
  let v := (on_get_r s r d true).1
  let s1 := (on_get_r s r d true).2
  let f := get_f s1
  let v1 := inc8 v
  let f1 := (f &&& cf_mask) ||| (v1 &&& (sf_mask ||| yf_mask ||| xf_mask)) |||
    zf_ari v1 ||| hf_inc v1 ||| pf_inc v1
  set_f (on_set_r s1 r d v1) f1

/-- Mirrors `on_dec_r`. -/
def on_dec_r (r : Reg) (d : Nat) (s : State) : State :=
  let v := (on_get_r s r d true).1
  let s1 := (on_get_r s r d true).2
  let f := get_f s1
  let v1 := dec8 v
  let f1 := (f &&& cf_mask) ||| (v1 &&& (sf_mask ||| yf_mask ||| xf_mask)) |||
    zf_ari v1 ||| hf_dec v1 ||| pf_dec v1 ||| nf_mask
  set_f (on_set_r s1 r d v1) f1

/-- Mirrors `on_inc_rp`. -/
def on_inc_rp (rp : RegP) (s : State) : State :=
  on_set_rp s rp (inc16 (on_get_rp s rp))

/-- Mirrors `on_dec_rp`. -/
def on_dec_rp (rp : RegP) (s : State) : State :=
  on_set_rp s rp (dec16 (on_get_rp s rp))

/-- Mirrors `on_ld_rp_nn`. -/
def on_ld_rp_nn (rp : RegP) (nn : Nat) (s : State) : State := on_set_rp s rp nn

/-- Mirrors `on_add_irp_rp`: 16-bit ADD on the index pair.  Note that the
source computes a flag byte here but never calls `on_set_f` in this
handler, so F is left unchanged; the dead computation is therefore not
part of the state function. -/
def on_add_irp_rp (rp : RegP) (s : State) : State :=
  let i := on_get_index_rp s
  let n := on_get_rp s rp
  let s1 := tick 3 (tick 4 s)
  let r := add16 i n
  on_set_index_rp { s1 with memptr := inc16 i } r

/-- Mirrors `on_adc_hl_rp`. -/
def on_adc_hl_rp (rp : RegP) (s : State) : State :=
  let hl := get_hl16 s
  let n := on_get_rp s rp
  let cf := (get_f s &&& cf_mask) != 0
  let s1 := tick 3 (tick 4 s)
  let t := add16 n (if cf then 1 else 0)
  let of := cf && (t == 0)
  let r := add16 hl t
  let f := (get_high8 r &&& (sf_mask ||| yf_mask ||| xf_mask)) ||| zf_ari r |||
    hf_ari (r >>> 8) (hl >>> 8) (n >>> 8) |||
    (pf_ari (r >>> 8) (hl >>> 8) (n >>> 8) ^^^ (if of then pf_mask else 0)) |||
    cf_ari (decide (r < hl) || of)
  set_f (set_hl16 { s1 with memptr := inc16 hl } r) f

/-- Mirrors `on_sbc_hl_rp`. -/
def on_sbc_hl_rp (rp : RegP) (s : State) : State :=
  let hl := get_hl16 s
  let n := on_get_rp s rp
  let cf := (get_f s &&& cf_mask) != 0
  let s1 := tick 3 (tick 4 s)
  let t := add16 n (if cf then 1 else 0)
  let of := cf && (t == 0)
  let r := sub16 hl t
  let f := (get_high8 r &&& (sf_mask ||| yf_mask ||| xf_mask)) ||| zf_ari r |||
    hf_ari (r >>> 8) (hl >>> 8) (n >>> 8) |||
    (pf_ari (r >>> 8) (hl >>> 8) (n >>> 8) ^^^ (if of then pf_mask else 0)) |||
    cf_ari (decide (r > hl) || of) ||| nf_mask
  set_f (set_hl16 { s1 with memptr := inc16 hl } r) f

/-- Mirrors `on_block_ld`: LDI/LDD/LDIR/LDDR.  Note the source's branch
comments are swapped relative to the enum values: the `k & 1` (LDD/LDDR)
branch decrements HL and DE and the other branch increments them, which is
the correct behaviour for each kind. -/
def on_block_ld (k : BlockLd) (s : State) : State :=
  let bc := get_bc16 s
  let de := get_de16 s
  let hl := get_hl16 s
  let a := get_a s
  let f := get_f s
  let t := (on_3t_read_cycle s hl).1
  let s1 := (on_3t_read_cycle s hl).2
  let s2 := on_5t_write_cycle s1 de t
  let bc1 := dec16 bc
  let t1 := t + a
  let f1 := (f &&& (sf_mask ||| zf_mask ||| cf_mask)) |||
    ((t1 <<< 4) &&& yf_mask) ||| (t1 &&& xf_mask) |||
    (if bc1 ≠ 0 then pf_mask else 0)
  let hl1 := if k.toNat &&& 1 = 1 then dec16 hl else inc16 hl
  let de1 := if k.toNat &&& 1 = 1 then dec16 de else inc16 de
  let s3 := set_f (set_hl16 (set_de16 (set_bc16 s2 bc1) de1) hl1) f1
  if k.toNat &&& 2 ≠ 0 ∧ bc1 ≠ 0 then
    let s4 := tick 5 s3
    { s4 with memptr := inc16 s4.pc, pc := sub16 s4.pc 2 }
  else s3

/-- Mirrors `on_bit`: BIT b,r.  The YX bits come from the high byte of
MEMPTR whenever the index pair is not HL or the operand is the memory
operand; otherwise from the tested byte. -/
def on_bit (b : Nat) (r : Reg) (d : Nat) (s : State) : State :=
  let v := (on_get_r s r d true).1
  let s1 := (on_get_r s r d true).2
  let f := get_f s1
  let m := v &&& (1 <<< b)
  let f1 := (f &&& cf_mask) ||| hf_mask |||
    (if m ≠ 0 then m &&& sf_mask else zf_mask ||| pf_mask)
  let v1 := if s1.index_rp ≠ IndexRP.hl ∨ r = Reg.at_hl then get_high8 s1.memptr
            else v
  set_f s1 (f1 ||| (v1 &&& (xf_mask ||| yf_mask)))

/-- Mirrors `on_res`.  The C++ `v &= ~(1u << b)` on a byte value equals
masking with the bitwise complement of the bit inside the byte. -/
def on_res (b : Nat) (r : Reg) (d : Nat) (s : State) : State :=
  let access_r := if s.index_rp = IndexRP.hl then r else Reg.at_hl
  let v := (on_get_r s access_r d true).1 &&& (255 ^^^ (1 <<< b))
  let s1 := (on_get_r s access_r d true).2
  let s2 := on_set_r s1 access_r d v
  if s.index_rp ≠ IndexRP.hl ∧ r ≠ Reg.at_hl then on_set_r s2 r 0 v else s2

/-- Mirrors `on_set`. -/
def on_set (b : Nat) (r : Reg) (d : Nat) (s : State) : State :=
  let access_r := if s.index_rp = IndexRP.hl then r else Reg.at_hl
  let v := (on_get_r s access_r d true).1 ||| (1 <<< b)
  let s1 := (on_get_r s access_r d true).2
  let s2 := on_set_r s1 access_r d v
  if s.index_rp ≠ IndexRP.hl ∧ r ≠ Reg.at_hl then on_set_r s2 r 0 v else s2

/-- Mirrors `on_scf`. -/
def on_scf (s : State) : State :=
  let a := get_a s
  let f := get_f s
  set_f s ((f &&& (sf_mask ||| zf_mask ||| pf_mask)) |||
    (a &&& (yf_mask ||| xf_mask)) ||| cf_mask)

/-- Mirrors `on_ccf`. -/
def on_ccf (s : State) : State :=
  let a := get_a s
  let f := get_f s
  let cf := (f &&& cf_mask) != 0
  set_f s ((f &&& (sf_mask ||| zf_mask ||| pf_mask)) |||
    (a &&& (yf_mask ||| xf_mask)) ||| (if cf then hf_mask else 0) ||| cf_ari (!cf))

/-- Mirrors `on_rrca`. -/
def on_rrca (s : State) : State :=
  let a := ror8 (get_a s)
  let f := get_f s
  set_f (set_a s a) ((f &&& (sf_mask ||| zf_mask ||| pf_mask)) |||
    (a &&& (yf_mask ||| xf_mask)) ||| cf_ari ((a &&& 128) != 0))

/-- Mirrors `on_di`. -/
def on_di (s : State) : State := { s with iff1 := false, iff2 := false }

/-- Mirrors `on_ei`: sets both flip-flops and `disable_int`. -/
def on_ei (s : State) : State :=
  { s with iff1 := true, iff2 := true, disable_int := true }

/-- Mirrors `processor_state::ex_de_hl`. -/
def on_ex_de_hl (s : State) : State := { s with de := s.hl, hl := s.de }

/-- Mirrors `processor_state::exx` (AF is not swapped). -/
def on_exx (s : State) : State :=
  { s with bc := s.alt_bc, alt_bc := s.bc, de := s.alt_de, alt_de := s.de,
           hl := s.alt_hl, alt_hl := s.hl }

/-- Mirrors `on_im`. -/
def on_im (mode : Nat) (s : State) : State := { s with int_mode := mode }

/-- Mirrors `on_ld_i_a`. -/
def on_ld_i_a (s : State) : State := set_i s (get_a s)

/-- Mirrors `on_ld_sp_irp`. -/
def on_ld_sp_irp (s : State) : State := { s with sp := on_get_index_rp s }

/-- Mirrors `on_jp_nn`. -/
def on_jp_nn (nn : Nat) (s : State) : State := { s with memptr := nn, pc := nn }

/-- Mirrors `on_jp_irp` (no MEMPTR update). -/
def on_jp_irp (s : State) : State := { s with pc := on_get_index_rp s }

/-- Mirrors `on_push`: high byte at SP-1, low byte at SP-2, SP -= 2. -/
def on_push (nn : Nat) (s : State) : State :=
  let sp1 := dec16 s.sp
  let s1 := on_3t_write_cycle s sp1 (get_high8 nn)
  let sp2 := dec16 sp1
  let s2 := on_3t_write_cycle s1 sp2 (get_low8 nn)
  { s2 with sp := sp2 }

/-- Mirrors `on_pop`: low byte from SP, high byte from SP+1, SP += 2. -/
def on_pop (s : State) : Nat × State :=
  let lo := (on_3t_read_cycle s s.sp).1
  let s1 := (on_3t_read_cycle s s.sp).2
  let hi := (on_3t_read_cycle s1 (inc16 s.sp)).1
  let s2 := (on_3t_read_cycle s1 (inc16 s.sp)).2
  (make16 hi lo, { s2 with sp := inc16 (inc16 s.sp) })

/-- Mirrors `on_call`. -/
def on_call (nn : Nat) (s : State) : State :=
  { on_push s.pc s with memptr := nn, pc := nn }

/-- Mirrors `on_call_nn`. -/
def on_call_nn (nn : Nat) (s : State) : State := on_call nn s

/-- Mirrors `on_return`. -/
def on_return (s : State) : State :=
  { (on_pop s).2 with memptr := (on_pop s).1, pc := (on_pop s).1 }

/-- Mirrors `on_ret`. -/
def on_ret (s : State) : State := on_return s

/-- Mirrors `on_ret_cc`. -/
def on_ret_cc (cc : Cond) (s : State) : State :=
  if check_condition s cc then on_return s else s

/-- Mirrors `on_relative_jump`. -/
def on_relative_jump (d : Nat) (s : State) : State :=
  let s1 := tick 5 s
  let m := get_disp_target s1.pc d
  { s1 with memptr := m, pc := m }

/-- Mirrors `on_jr`. -/
def on_jr (d : Nat) (s : State) : State := on_relative_jump d s

/-- Mirrors `on_jr_cc`. -/
def on_jr_cc (cc : Cond) (d : Nat) (s : State) : State :=
  if check_condition s cc then on_relative_jump d s else s

/-- Mirrors `on_djnz`. -/
def on_djnz (d : Nat) (s : State) : State :=
  let b := dec8 (get_b s)
  let s1 := set_b s b
  if b ≠ 0 then on_relative_jump d s1 else s1

/-- Mirrors `on_pop_rp`. -/
def on_pop_rp (rp : RegP2) (s : State) : State :=
  on_set_rp2 ((on_pop s).2) rp ((on_pop s).1)

/-- Mirrors `on_push_rp`. -/
def on_push_rp (rp : RegP2) (s : State) : State := on_push (on_get_rp2 s rp) s

/-- Mirrors `on_ld_irp_at_nn`. -/
def on_ld_irp_at_nn (nn : Nat) (s : State) : State :=
  let lo := (on_3t_read_cycle s nn).1
  let s1 := { (on_3t_read_cycle s nn).2 with memptr := inc16 nn }
  let hi := (on_3t_read_cycle s1 (inc16 nn)).1
  let s2 := (on_3t_read_cycle s1 (inc16 nn)).2
  on_set_index_rp s2 (make16 hi lo)

/-- Mirrors `on_ld_at_nn_irp`. -/
def on_ld_at_nn_irp (nn : Nat) (s : State) : State :=
  let irpv := on_get_index_rp s
  let s1 := { on_3t_write_cycle s nn (get_low8 irpv) with memptr := inc16 nn }
  on_3t_write_cycle s1 (inc16 nn) (get_high8 irpv)

/-- Mirrors `on_ld_rp_at_nn`. -/
def on_ld_rp_at_nn (rp : RegP) (nn : Nat) (s : State) : State :=
  let lo := (on_3t_read_cycle s nn).1
  let s1 := { (on_3t_read_cycle s nn).2 with memptr := inc16 nn }
  let hi := (on_3t_read_cycle s1 (inc16 nn)).1
  let s2 := (on_3t_read_cycle s1 (inc16 nn)).2
  on_set_rp s2 rp (make16 hi lo)

/-- Mirrors `on_ld_at_nn_rp`. -/
def on_ld_at_nn_rp (nn : Nat) (rp : RegP) (s : State) : State :=
  let rpv := on_get_rp s rp
  let s1 := { on_3t_write_cycle s nn (get_low8 rpv) with memptr := inc16 nn }
  on_3t_write_cycle s1 (inc16 nn) (get_high8 rpv)

/-- Mirrors `on_ld_a_at_nn`. -/
def on_ld_a_at_nn (nn : Nat) (s : State) : State :=
  let s1 := { s with memptr := inc16 nn }
  set_a ((on_3t_read_cycle s1 nn).2) ((on_3t_read_cycle s1 nn).1)

/-- Mirrors `on_ld_at_nn_a`. -/
def on_ld_at_nn_a (nn : Nat) (s : State) : State :=
  let a := get_a s
  let s1 := { s with memptr := make16 a (inc8 (get_low8 nn)) }
  on_3t_write_cycle s1 nn a

/-- Mirrors `on_out_n_a`. -/
def on_out_n_a (n : Nat) (s : State) : State :=
  let a := get_a s
  { on_output_cycle s (make16 a n) a with memptr := make16 a (inc8 n) }

/-- Mirrors `on_ed_prefix` of the decoder (the processor does not
override it): only the instruction state changes. -/
def on_ed_pfx (s : State) : State := { s with pfx := Pfx.ed }

/-- Mirrors `on_cb_prefix`: enters the CB decoding state and re-arms
`next_index_rp` with the current index pair. -/
def on_cb_pfx (s : State) : State :=
  { s with pfx := Pfx.cb, next_index_rp := s.index_rp }

/-- Mirrors the processor's `on_set_next_index_rp` override: records the
pending index pair and sets `disable_int`. -/
def on_set_next_irp (irp : IndexRP) (s : State) : State :=
  { s with next_index_rp := irp, disable_int := true }

/-- Mirrors `read_disp_or_null`: a displacement byte followed by a 5-tick
exec cycle, but only when the index pair is not HL and a memory operand is
involved. -/
def read_disp_or_null (s : State) (may : Bool) : Nat × State :=
  if s.index_rp = IndexRP.hl ∨ may = false then (0, s)
  else ((on_disp_read s).1, tick 5 (on_disp_read s).2)

/-- Mirrors `decode_int_mode` (`y < 2 ? 0 : y - 1` on the low two bits). -/
def decode_int_mode (y : Nat) : Nat :=
  if y &&& 3 < 2 then 0 else (y &&& 3) - 1

/-- Mirrors the last chunk of the `switch(op)` singleton dispatch of
`decode_unprefixed`; the final `none` is the `std::abort()` on an
unknown opcode (note in particular that the source has no case for the
0xDD prefix byte). -/
def decode_main_s4 (op : Nat) (s : State) : Option State :=
  if op = 251 then some (on_ei s)
  else if op = 253 then some (on_set_next_irp IndexRP.iy s)
  else none

/-- Mirrors the third chunk of the singleton dispatch of
`decode_unprefixed`. -/
def decode_main_s3 (op : Nat) (s : State) : Option State :=
  if op = 211 then
    some (on_out_n_a ((on_3t_imm8_read s).1) ((on_3t_imm8_read s).2))
  else if op = 217 then some (on_exx s)
  else if op = 233 then some (on_jp_irp s)
  else if op = 235 then some (on_ex_de_hl s)
  else if op = 237 then some (on_ed_pfx s)
  else if op = 243 then some (on_di s)
  else if op = 249 then some (on_ld_sp_irp (tick 2 s))
  else decode_main_s4 op s

/-- Mirrors the second chunk of the singleton dispatch of
`decode_unprefixed`. -/
def decode_main_s2 (op : Nat) (s : State) : Option State :=
  if op = 55 then some (on_scf s)
  else if op = 58 then
    some (on_ld_a_at_nn ((on_3t_3t_imm16_read s).1) ((on_3t_3t_imm16_read s).2))
  else if op = 63 then some (on_ccf s)
  else if op = 195 then
    some (on_jp_nn ((on_3t_3t_imm16_read s).1) ((on_3t_3t_imm16_read s).2))
  else if op = 201 then some (on_ret s)
  else if op = 203 then some (on_cb_pfx s)
  else if op = 205 then
    some (on_call_nn ((on_3t_4t_imm16_read s).1) ((on_3t_4t_imm16_read s).2))
  else decode_main_s3 op s

/-- Mirrors the head of the `switch(op)` singleton dispatch of
`decode_unprefixed` (the opcode cases appear in the source's order,
chunked only so that each chunk stays small). -/
def decode_main_s1 (op : Nat) (s : State) : Option State :=
  if op = 0 then some (on_nop s)
  else if op = 15 then some (on_rrca s)
  else if op = 16 then
    some (on_djnz ((on_disp_read (tick 1 s)).1) ((on_disp_read (tick 1 s)).2))
  else if op = 24 then
    some (on_jr ((on_disp_read s).1) ((on_disp_read s).2))
  else if op = 34 then
    some (on_ld_at_nn_irp ((on_3t_3t_imm16_read s).1) ((on_3t_3t_imm16_read s).2))
  else if op = 42 then
    some (on_ld_irp_at_nn ((on_3t_3t_imm16_read s).1) ((on_3t_3t_imm16_read s).2))
  else if op = 50 then
    some (on_ld_at_nn_a ((on_3t_3t_imm16_read s).1) ((on_3t_3t_imm16_read s).2))
  else decode_main_s2 op s

/-- Mirrors the `switch(op & (x_mask | z_mask | q_mask))` dispatch of
`decode_unprefixed` (16-bit loads, INC/DEC rp, ADD HL, POP/PUSH),
falling through to the singleton dispatch. -/
def decode_main_q (op : Nat) (s : State) : Option State :=
  if op &&& 207 = 1 then
    some (on_ld_rp_nn (rpOf ((op >>> 4) &&& 3)) ((on_3t_3t_imm16_read s).1)
      ((on_3t_3t_imm16_read s).2))
  else if op &&& 207 = 3 then
    some (on_inc_rp (rpOf ((op >>> 4) &&& 3)) (tick 2 s))
  else if op &&& 207 = 9 then
    some (on_add_irp_rp (rpOf ((op >>> 4) &&& 3)) s)
  else if op &&& 207 = 11 then
    some (on_dec_rp (rpOf ((op >>> 4) &&& 3)) (tick 2 s))
  else if op &&& 207 = 193 then
    some (on_pop_rp (rp2Of ((op >>> 4) &&& 3)) s)
  else if op &&& 207 = 197 then
    some (on_push_rp (rp2Of ((op >>> 4) &&& 3)) (tick 1 s))
  else decode_main_s1 op s

/-- Mirrors the JR cc test of `decode_unprefixed`, falling through to the
q dispatch. -/
def decode_main_jr (op : Nat) (s : State) : Option State :=
  if op &&& 231 = 32 then
    some (on_jr_cc (condOf ((op &&& 24) >>> 3)) ((on_disp_read s).1)
      ((on_disp_read s).2))
  else decode_main_q op s

/-- Mirrors the `switch(op & (x_mask | z_mask))` dispatch of
`decode_unprefixed` (INC r, DEC r, LD r,n, RET cc, alu n), falling
through to the JR cc test. -/
def decode_main_xz (op : Nat) (s : State) : Option State :=
  if op &&& 199 = 4 then
    let r := regOf ((op >>> 3) &&& 7)
    some (on_inc_r r ((read_disp_or_null s (r == Reg.at_hl)).1)
      ((read_disp_or_null s (r == Reg.at_hl)).2))
  else if op &&& 199 = 5 then
    let r := regOf ((op >>> 3) &&& 7)
    some (on_dec_r r ((read_disp_or_null s (r == Reg.at_hl)).1)
      ((read_disp_or_null s (r == Reg.at_hl)).2))
  else if op &&& 199 = 6 then
    let r := regOf ((op >>> 3) &&& 7)
    if r ≠ Reg.at_hl ∨ s.index_rp = IndexRP.hl then
      some (on_ld_r_n r 0 ((on_3t_imm8_read s).1) ((on_3t_imm8_read s).2))
    else
      let d := (on_disp_read s).1
      let s1 := (on_disp_read s).2
      some (on_ld_r_n r d ((on_5t_imm8_read s1).1) ((on_5t_imm8_read s1).2))
  else if op &&& 199 = 192 then
    some (on_ret_cc (condOf ((op >>> 3) &&& 7)) (tick 1 s))
  else if op &&& 199 = 198 then
    on_alu_n (aluOf ((op >>> 3) &&& 7)) ((on_3t_imm8_read s).1)
      ((on_3t_imm8_read s).2)
  else decode_main_jr op s

/-- Mirrors the `switch(op & x_mask)` dispatch of `decode_unprefixed`
(LD r,r / HALT and the alu r group), falling through to the x-z
dispatch.  The HALT slot's `assert(0)` is `none`. -/
def decode_main_op (op : Nat) (s : State) : Option State :=
  if op &&& 192 = 64 then
    let rd := regOf ((op >>> 3) &&& 7)
    let rs := regOf (op &&& 7)
    if rd = Reg.at_hl ∧ rs = Reg.at_hl then none
    else
      let may := rd == Reg.at_hl || rs == Reg.at_hl
      some (on_ld_r_r rd rs ((read_disp_or_null s may).1) ((read_disp_or_null s may).2))
  else if op &&& 192 = 128 then
    let k := aluOf ((op >>> 3) &&& 7)
    let r := regOf (op &&& 7)
    on_alu_r k r ((read_disp_or_null s (r == Reg.at_hl)).1)
      ((read_disp_or_null s (r == Reg.at_hl)).2)
  else decode_main_xz op s

/-- Mirrors `decode_unprefixed` (rendered `decode_main`): fetch the
opcode, then dispatch. -/
def decode_main (s0 : State) : Option State :=
  decode_main_op ((on_fetch s0).1) ((on_fetch s0).2)

/-- Mirrors the dispatch of `decode_cb_prefixed` on the fetched opcode and
the displacement byte: the rotate/shift group (x = 0) is not implemented
in the source and aborts.  The `prefix_reset_guard` resets the
instruction state on every completed path. -/
def decode_cb_op (op d : Nat) (s : State) : Option State :=
  let b := (op >>> 3) &&& 7
  let r := regOf (op &&& 7)
  (if op &&& 192 = 64 then some (on_bit b r d s)
   else if op &&& 192 = 128 then some (on_res b r d s)
   else if op &&& 192 = 192 then some (on_set b r d s)
   else none).map (fun t => { t with pfx := Pfx.none })

/-- Mirrors `decode_cb_prefixed` (rendered `decode_cb`): for an indexed
form the displacement is read before the opcode and the opcode fetch gets
one extra tick. -/
def decode_cb (s0 : State) : Option State :=
  let d := if s0.index_rp ≠ IndexRP.hl then (on_disp_read s0).1 else 0
  let sA := if s0.index_rp ≠ IndexRP.hl then (on_disp_read s0).2 else s0
  let op := (on_fetch sA).1
  let sB := (on_fetch sA).2
  let sC := if s0.index_rp ≠ IndexRP.hl then tick 1 sB else sB
  decode_cb_op op d sC

/-- Mirrors the dispatch of `decode_ed_prefixed` on the fetched opcode:
only the `x=2, z=0, y<4` slots are NONI; every other unlisted opcode
reaches `std::abort()` and is modelled `none`. -/
def decode_ed_op (op : Nat) (s : State) : Option State :=
  (if op &&& 199 = 66 then
     some (if op &&& 8 ≠ 0 then on_adc_hl_rp (rpOf ((op >>> 4) &&& 3)) s
           else on_sbc_hl_rp (rpOf ((op >>> 4) &&& 3)) s)
   else if op &&& 199 = 67 then
     some (if op &&& 8 ≠ 0 then
             on_ld_rp_at_nn (rpOf ((op >>> 4) &&& 3)) ((on_3t_3t_imm16_read s).1)
               ((on_3t_3t_imm16_read s).2)
           else
             on_ld_at_nn_rp ((on_3t_3t_imm16_read s).1) (rpOf ((op >>> 4) &&& 3))
               ((on_3t_3t_imm16_read s).2))
   else if op &&& 199 = 70 then
     some (on_im (decode_int_mode ((op >>> 3) &&& 7)) s)
   else if op &&& 199 = 128 then
     (if (op >>> 3) &&& 7 < 4 then some (on_noni_ed op s)
      else some (on_block_ld (blkOf (((op >>> 3) &&& 7) - 4)) s))
   else if op = 71 then some (on_ld_i_a (tick 1 s))
   else none).map (fun t => { t with pfx := Pfx.none })

/-- Mirrors `decode_ed_prefixed` (rendered `decode_ed`): fetch the
second opcode byte, then dispatch. -/
def decode_ed (s0 : State) : Option State :=
  decode_ed_op ((on_fetch s0).1) ((on_fetch s0).2)

/-- Mirrors `on_decode`: latch `next_index_rp` into `index_rp`, re-arm
`next_index_rp` with HL, then decode by the current instruction state. -/
def on_decode (s : State) : Option State :=
  let s1 := { s with index_rp := s.next_index_rp, next_index_rp := IndexRP.hl }
  match s1.pfx with
  | Pfx.none => decode_main s1
  | Pfx.cb => decode_cb s1
  | Pfx.ed => decode_ed s1

/-- Mirrors `step` / `on_step`: one decoder dispatch. -/
def step (s : State) : Option State := on_decode s

/-- Iterated `step`; `none` as soon as any step aborts. -/
def stepN : Nat → State → Option State
  | 0, s => some s
  | n + 1, s => (step s).bind (stepN n)

/-- Specification-side description of the memory image after a number of
LDIR copy iterations: the k-th iteration (counting from zero) copies the
byte then found at HL+k to DE+k, all addresses taken modulo 2^16. -/
def ldirMem (m : Nat → Nat) (hl de : Nat) : Nat → Nat → Nat
  | 0 => m
  | k + 1 => fun x =>
    if x = (de + k) % 65536 then ldirMem m hl de k ((hl + k) % 65536) % 256
    else ldirMem m hl de k x

/-- Specification-side sign extension of a displacement byte. -/
def sdisp (d : Nat) : Int := if d < 128 then (d : Int) else (d : Int) - 256

/-- Specification-side effective address of an indexed operand: index
register value plus sign-extended displacement, reduced modulo 2^16. -/
def effAddr (base d : Nat) : Int := ((base : Int) + sdisp d) % 65536

/-- Start state with LDIR at 0 whose destination overlaps the instruction
(DE = 0 = PC): the first copied byte overwrites the 0xED opcode. -/
def c1CexInit : State :=
  { reset with
      mem := fun x => if x = 0 then 237 else if x = 1 then 176 else 0,
      bc := 2, hl := 16, de := 0 }

/-- Start state with LDIR at 0, BC = 2, HL = 16, DE = 32 and source bytes
65, 66. -/
def c1WitInit : State :=
  { reset with
      mem := fun x =>
        if x = 0 then 237 else if x = 1 then 176 else
        if x = 16 then 65 else if x = 17 then 66 else 0,
      bc := 2, hl := 16, de := 32 }

/-- Start state with EI at 0 followed by NOP. -/
def c2CexInit : State :=
  { reset with mem := fun x => if x = 0 then 251 else 0 }

/-- Start state with ED 0x00 at 0: an ED opcode outside every decoded
slot. -/
def c3CexInit : State :=
  { reset with mem := fun x => if x = 0 then 237 else 0 }

/-- Start state already in the ED decoding state with opcode 0x80 (a NONI
slot) at 0. -/
def c3WitInit : State :=
  { reset with pfx := Pfx.ed, mem := fun x => if x = 0 then 128 else 0 }

/-- Start state with FD CB at 0: after the second step the pending index
pair is IY although the fetched byte 0xCB is not an index prefix byte. -/
def c4CexInit : State :=
  { reset with
      mem := fun x => if x = 0 then 253 else if x = 1 then 203 else 0 }

/-- Start state with DD at 0 (the 0xDD prefix byte has no decoder case in
the source and aborts). -/
def ddInit : State :=
  { reset with mem := fun x => if x = 0 then 221 else 0 }

/-- Start state with CB 46 (BIT 0,(HL)) at 0, HL = 5, mem 5 = 1 and
MEMPTR = 0x2800. -/
def c5CexInit : State :=
  { reset with
      mem := fun x =>
        if x = 0 then 203 else if x = 1 then 70 else if x = 5 then 1 else 0,
      hl := 5, memptr := 10240 }

/-- Start state of spec scenario 5: LD HL,0x8000 then ADD HL,HL from
reset. -/
def c7Init : State :=
  { reset with
      mem := fun x =>
        if x = 0 then 33 else if x = 2 then 128 else if x = 3 then 41 else 0 }

/-! Arithmetic bridge lemmas: the source's bit maskings as modular
arithmetic. -/

theorem and_255 (n : Nat) : n &&& 255 = n % 256 := by
  simpa using Nat.and_pow_two_sub_one_eq_mod n 8

theorem and_65535 (n : Nat) : n &&& 65535 = n % 65536 := by
  simpa using Nat.and_pow_two_sub_one_eq_mod n 16

theorem shiftLeft8 (n : Nat) : n <<< 8 = n * 256 := by
  rw [Nat.shiftLeft_eq]

theorem shiftRight8 (n : Nat) : n >>> 8 = n / 256 := by
  rw [Nat.shiftRight_eq_div_pow]

theorem testBit_of_lt {x i : Nat} (h : x < 2 ^ i) : x.testBit i = false :=
  Nat.testBit_lt_two_pow h

theorem make16_eq (hi lo : Nat) (h : lo < 256) : make16 hi lo = hi * 256 + lo := by
  unfold make16
  rw [shiftLeft8]
  apply Nat.eq_of_testBit_eq
  intro i
  have h2 : hi * 256 + lo = 2 ^ 8 * hi + lo := by ring_nf
  rw [h2, Nat.testBit_mul_pow_two_add hi (show lo < 2 ^ 8 by simpa using h) i]
  rcases lt_or_ge i 8 with hi8 | hi8
  · rw [if_pos hi8, Nat.testBit_lor]
    have hz : (hi * 256).testBit i = false := by
      rw [show hi * 256 = 2 ^ 8 * hi by ring, Nat.testBit_mul_pow_two]
      simp [Nat.not_le.mpr hi8]
    rw [hz]
    simp
  · rw [if_neg (Nat.not_lt.mpr hi8), Nat.testBit_lor]
    have hlo : lo.testBit i = false :=
      testBit_of_lt (lt_of_lt_of_le (show lo < 2 ^ 8 by simpa using h)
        (Nat.pow_le_pow_right (by norm_num) hi8))
    rw [hlo, show hi * 256 = 2 ^ 8 * hi by ring, Nat.testBit_mul_pow_two]
    simp [hi8]

@[simp] theorem add16_eq (a b : Nat) : add16 a b = (a + b) % 65536 := by
  unfold add16
  exact and_65535 _

@[simp] theorem sub16_eq (a b : Nat) : sub16 a b = (a + 65536 - b % 65536) % 65536 := by
  unfold sub16
  rw [and_65535, and_65535]

@[simp] theorem inc16_eq (n : Nat) : inc16 n = (n + 1) % 65536 := by
  unfold inc16
  rw [add16_eq]

@[simp] theorem dec16_eq (n : Nat) : dec16 n = (n + 65535) % 65536 := by
  unfold dec16
  rw [sub16_eq]
  norm_num

@[simp] theorem add8_eq (a b : Nat) : add8 a b = (a + b) % 256 := by
  unfold add8
  exact and_255 _

@[simp] theorem sub8_eq (a b : Nat) : sub8 a b = (a + 256 - b % 256) % 256 := by
  unfold sub8
  rw [and_255, and_255]

@[simp] theorem inc8_eq (n : Nat) : inc8 n = (n + 1) % 256 := by
  unfold inc8
  rw [add8_eq]

@[simp] theorem dec8_eq (n : Nat) : dec8 n = (n + 255) % 256 := by
  unfold dec8
  rw [sub8_eq]
  norm_num

@[simp] theorem get_low8_eq (n : Nat) : get_low8 n = n % 256 := by
  unfold get_low8
  exact and_255 _

@[simp] theorem get_high8_eq (n : Nat) : get_high8 n = n / 256 % 256 := by
  unfold get_high8
  rw [shiftRight8, and_255]

theorem make16_low_high (n : Nat) :
    make16 (n / 256 % 256) (n % 256) = n % 65536 := by
  rw [make16_eq _ _ (Nat.mod_lt _ (by norm_num))]
  omega

@[simp] theorem get_a_eq (s : State) : get_a s = s.af / 256 % 256 := by
  unfold get_a
  rw [get_high8_eq]

@[simp] theorem get_f_eq (s : State) : get_f s = s.af % 256 := by
  unfold get_f
  rw [get_low8_eq]

@[simp] theorem get_b_eq (s : State) : get_b s = s.bc / 256 % 256 := by
  unfold get_b
  rw [get_high8_eq]

@[simp] theorem get_c_eq (s : State) : get_c s = s.bc % 256 := by
  unfold get_c
  rw [get_low8_eq]

@[simp] theorem get_bc16_eq (s : State) : get_bc16 s = s.bc % 65536 := by
  unfold get_bc16 get_b get_c
  rw [get_high8_eq, get_low8_eq, make16_low_high]

@[simp] theorem get_de16_eq (s : State) : get_de16 s = s.de % 65536 := by
  unfold get_de16 get_d get_e
  rw [get_high8_eq, get_low8_eq, make16_low_high]

@[simp] theorem get_hl16_eq (s : State) : get_hl16 s = s.hl % 65536 := by
  unfold get_hl16 get_h get_l
  rw [get_high8_eq, get_low8_eq, make16_low_high]

@[simp] theorem get_af16_eq (s : State) : get_af16 s = s.af % 65536 := by
  unfold get_af16 get_a get_f
  rw [get_high8_eq, get_low8_eq, make16_low_high]

@[simp] theorem get_ix16_eq (s : State) : get_ix16 s = s.ix % 65536 := by
  unfold get_ix16
  rw [get_high8_eq, get_low8_eq, make16_low_high]

@[simp] theorem get_iy16_eq (s : State) : get_iy16 s = s.iy % 65536 := by
  unfold get_iy16
  rw [get_high8_eq, get_low8_eq, make16_low_high]

theorem make16_of_byte (hi lo : Nat) (h : lo < 256) :
    make16 hi lo % 256 = lo ∧ make16 hi lo / 256 % 256 = hi % 256 := by
  rw [make16_eq hi lo h]
  omega

@[simp] theorem set_hl16_eq (s : State) (nn : Nat) :
    set_hl16 s nn = { s with hl := nn % 65536 } := by
  unfold set_hl16 set_h set_l get_h get_l
  simp only [get_low8_eq, get_high8_eq, State.mk.injEq, and_true, true_and]
  rw [(make16_of_byte _ (nn % 256) (by omega)).1, make16_eq _ _ (by omega)]
  omega

@[simp] theorem set_bc16_eq (s : State) (nn : Nat) :
    set_bc16 s nn = { s with bc := nn % 65536 } := by
  unfold set_bc16 set_b set_c get_b get_c
  simp only [get_low8_eq, get_high8_eq, State.mk.injEq, and_true, true_and]
  rw [(make16_of_byte _ (nn % 256) (by omega)).1, make16_eq _ _ (by omega)]
  omega

@[simp] theorem set_de16_eq (s : State) (nn : Nat) :
    set_de16 s nn = { s with de := nn % 65536 } := by
  unfold set_de16 set_d set_e get_d get_e
  simp only [get_low8_eq, get_high8_eq, State.mk.injEq, and_true, true_and]
  rw [(make16_of_byte _ (nn % 256) (by omega)).1, make16_eq _ _ (by omega)]
  omega

@[simp] theorem set_ix16_eq (s : State) (nn : Nat) :
    set_ix16 s nn = { s with ix := nn % 65536 } := by
  unfold set_ix16
  simp only [get_low8_eq, get_high8_eq, State.mk.injEq, and_true, true_and]
  rw [make16_eq _ _ (by omega)]
  omega

@[simp] theorem set_iy16_eq (s : State) (nn : Nat) :
    set_iy16 s nn = { s with iy := nn % 65536 } := by
  unfold set_iy16
  simp only [get_low8_eq, get_high8_eq, State.mk.injEq, and_true, true_and]
  rw [make16_eq _ _ (by omega)]
  omega

/-! Frame lemmas: the decoder instruction state (`pfx`), the pending
index pair (`next_index_rp`) and `disable_int` are untouched by the
bus primitives and by every handler that does not manage them. -/

@[simp] theorem tick_pfx (n : Nat) (s : State) : (tick n s).pfx = s.pfx := rfl

@[simp] theorem tick_next (n : Nat) (s : State) : (tick n s).next_index_rp = s.next_index_rp := rfl

@[simp] theorem tick_dint (n : Nat) (s : State) : (tick n s).disable_int = s.disable_int := rfl

@[simp] theorem memWrite_pfx (s : State) (a n : Nat) : (memWrite s a n).pfx = s.pfx := rfl

@[simp] theorem memWrite_next (s : State) (a n : Nat) : (memWrite s a n).next_index_rp = s.next_index_rp := rfl

@[simp] theorem memWrite_dint (s : State) (a n : Nat) : (memWrite s a n).disable_int = s.disable_int := rfl

@[simp] theorem on_fetch_cycle_pfx (s : State) (a : Nat) : (on_fetch_cycle s a).2.pfx = s.pfx := rfl

@[simp] theorem on_fetch_cycle_next (s : State) (a : Nat) : (on_fetch_cycle s a).2.next_index_rp = s.next_index_rp := rfl

@[simp] theorem on_fetch_cycle_dint (s : State) (a : Nat) : (on_fetch_cycle s a).2.disable_int = s.disable_int := rfl

@[simp] theorem on_fetch_pfx (s : State) : (on_fetch s).2.pfx = s.pfx := rfl

@[simp] theorem on_fetch_next (s : State) : (on_fetch s).2.next_index_rp = s.next_index_rp := rfl

@[simp] theorem on_fetch_dint (s : State) : (on_fetch s).2.disable_int = s.disable_int := rfl

@[simp] theorem on_3t_read_cycle_pfx (s : State) (a : Nat) : (on_3t_read_cycle s a).2.pfx = s.pfx := rfl

@[simp] theorem on_3t_read_cycle_next (s : State) (a : Nat) : (on_3t_read_cycle s a).2.next_index_rp = s.next_index_rp := rfl

@[simp] theorem on_3t_read_cycle_dint (s : State) (a : Nat) : (on_3t_read_cycle s a).2.disable_int = s.disable_int := rfl

@[simp] theorem on_4t_read_cycle_pfx (s : State) (a : Nat) : (on_4t_read_cycle s a).2.pfx = s.pfx := rfl

@[simp] theorem on_4t_read_cycle_next (s : State) (a : Nat) : (on_4t_read_cycle s a).2.next_index_rp = s.next_index_rp := rfl

@[simp] theorem on_4t_read_cycle_dint (s : State) (a : Nat) : (on_4t_read_cycle s a).2.disable_int = s.disable_int := rfl

@[simp] theorem on_5t_read_cycle_pfx (s : State) (a : Nat) : (on_5t_read_cycle s a).2.pfx = s.pfx := rfl

@[simp] theorem on_5t_read_cycle_next (s : State) (a : Nat) : (on_5t_read_cycle s a).2.next_index_rp = s.next_index_rp := rfl

@[simp] theorem on_5t_read_cycle_dint (s : State) (a : Nat) : (on_5t_read_cycle s a).2.disable_int = s.disable_int := rfl

@[simp] theorem on_3t_write_cycle_pfx (s : State) (a n : Nat) : (on_3t_write_cycle s a n).pfx = s.pfx := rfl

@[simp] theorem on_3t_write_cycle_next (s : State) (a n : Nat) : (on_3t_write_cycle s a n).next_index_rp = s.next_index_rp := rfl

@[simp] theorem on_3t_write_cycle_dint (s : State) (a n : Nat) : (on_3t_write_cycle s a n).disable_int = s.disable_int := rfl

@[simp] theorem on_5t_write_cycle_pfx (s : State) (a n : Nat) : (on_5t_write_cycle s a n).pfx = s.pfx := rfl

@[simp] theorem on_5t_write_cycle_next (s : State) (a n : Nat) : (on_5t_write_cycle s a n).next_index_rp = s.next_index_rp := rfl

@[simp] theorem on_5t_write_cycle_dint (s : State) (a n : Nat) : (on_5t_write_cycle s a n).disable_int = s.disable_int := rfl

@[simp] theorem on_output_cycle_pfx (s : State) (a n : Nat) : (on_output_cycle s a n).pfx = s.pfx := rfl

@[simp] theorem on_output_cycle_next (s : State) (a n : Nat) : (on_output_cycle s a n).next_index_rp = s.next_index_rp := rfl

@[simp] theorem on_output_cycle_dint (s : State) (a n : Nat) : (on_output_cycle s a n).disable_int = s.disable_int := rfl

@[simp] theorem on_3t_imm8_read_pfx (s : State) : (on_3t_imm8_read s).2.pfx = s.pfx := rfl

@[simp] theorem on_3t_imm8_read_next (s : State) : (on_3t_imm8_read s).2.next_index_rp = s.next_index_rp := rfl

@[simp] theorem on_3t_imm8_read_dint (s : State) : (on_3t_imm8_read s).2.disable_int = s.disable_int := rfl

@[simp] theorem on_5t_imm8_read_pfx (s : State) : (on_5t_imm8_read s).2.pfx = s.pfx := rfl

@[simp] theorem on_5t_imm8_read_next (s : State) : (on_5t_imm8_read s).2.next_index_rp = s.next_index_rp := rfl

@[simp] theorem on_5t_imm8_read_dint (s : State) : (on_5t_imm8_read s).2.disable_int = s.disable_int := rfl

@[simp] theorem on_disp_read_pfx (s : State) : (on_disp_read s).2.pfx = s.pfx := rfl

@[simp] theorem on_disp_read_next (s : State) : (on_disp_read s).2.next_index_rp = s.next_index_rp := rfl

@[simp] theorem on_disp_read_dint (s : State) : (on_disp_read s).2.disable_int = s.disable_int := rfl

@[simp] theorem on_3t_3t_imm16_read_pfx (s : State) : (on_3t_3t_imm16_read s).2.pfx = s.pfx := rfl

@[simp] theorem on_3t_3t_imm16_read_next (s : State) : (on_3t_3t_imm16_read s).2.next_index_rp = s.next_index_rp := rfl

@[simp] theorem on_3t_3t_imm16_read_dint (s : State) : (on_3t_3t_imm16_read s).2.disable_int = s.disable_int := rfl

@[simp] theorem on_3t_4t_imm16_read_pfx (s : State) : (on_3t_4t_imm16_read s).2.pfx = s.pfx := rfl

@[simp] theorem on_3t_4t_imm16_read_next (s : State) : (on_3t_4t_imm16_read s).2.next_index_rp = s.next_index_rp := rfl

@[simp] theorem on_3t_4t_imm16_read_dint (s : State) : (on_3t_4t_imm16_read s).2.disable_int = s.disable_int := rfl

@[simp] theorem set_b_pfx (s : State) (n : Nat) : (set_b s n).pfx = s.pfx := rfl

@[simp] theorem set_b_next (s : State) (n : Nat) : (set_b s n).next_index_rp = s.next_index_rp := rfl

@[simp] theorem set_b_dint (s : State) (n : Nat) : (set_b s n).disable_int = s.disable_int := rfl

@[simp] theorem set_c_pfx (s : State) (n : Nat) : (set_c s n).pfx = s.pfx := rfl

@[simp] theorem set_c_next (s : State) (n : Nat) : (set_c s n).next_index_rp = s.next_index_rp := rfl

@[simp] theorem set_c_dint (s : State) (n : Nat) : (set_c s n).disable_int = s.disable_int := rfl

@[simp] theorem set_d_pfx (s : State) (n : Nat) : (set_d s n).pfx = s.pfx := rfl

@[simp] theorem set_d_next (s : State) (n : Nat) : (set_d s n).next_index_rp = s.next_index_rp := rfl

@[simp] theorem set_d_dint (s : State) (n : Nat) : (set_d s n).disable_int = s.disable_int := rfl

@[simp] theorem set_e_pfx (s : State) (n : Nat) : (set_e s n).pfx = s.pfx := rfl

@[simp] theorem set_e_next (s : State) (n : Nat) : (set_e s n).next_index_rp = s.next_index_rp := rfl

@[simp] theorem set_e_dint (s : State) (n : Nat) : (set_e s n).disable_int = s.disable_int := rfl

@[simp] theorem set_h_pfx (s : State) (n : Nat) : (set_h s n).pfx = s.pfx := rfl

@[simp] theorem set_h_next (s : State) (n : Nat) : (set_h s n).next_index_rp = s.next_index_rp := rfl

@[simp] theorem set_h_dint (s : State) (n : Nat) : (set_h s n).disable_int = s.disable_int := rfl

@[simp] theorem set_l_pfx (s : State) (n : Nat) : (set_l s n).pfx = s.pfx := rfl

@[simp] theorem set_l_next (s : State) (n : Nat) : (set_l s n).next_index_rp = s.next_index_rp := rfl

@[simp] theorem set_l_dint (s : State) (n : Nat) : (set_l s n).disable_int = s.disable_int := rfl

@[simp] theorem set_a_pfx (s : State) (n : Nat) : (set_a s n).pfx = s.pfx := rfl

@[simp] theorem set_a_next (s : State) (n : Nat) : (set_a s n).next_index_rp = s.next_index_rp := rfl

@[simp] theorem set_a_dint (s : State) (n : Nat) : (set_a s n).disable_int = s.disable_int := rfl

@[simp] theorem set_f_pfx (s : State) (n : Nat) : (set_f s n).pfx = s.pfx := rfl

@[simp] theorem set_f_next (s : State) (n : Nat) : (set_f s n).next_index_rp = s.next_index_rp := rfl

@[simp] theorem set_f_dint (s : State) (n : Nat) : (set_f s n).disable_int = s.disable_int := rfl

@[simp] theorem set_i_pfx (s : State) (n : Nat) : (set_i s n).pfx = s.pfx := rfl

@[simp] theorem set_i_next (s : State) (n : Nat) : (set_i s n).next_index_rp = s.next_index_rp := rfl

@[simp] theorem set_i_dint (s : State) (n : Nat) : (set_i s n).disable_int = s.disable_int := rfl

@[simp] theorem set_af16_pfx (s : State) (n : Nat) : (set_af16 s n).pfx = s.pfx := rfl

@[simp] theorem set_af16_next (s : State) (n : Nat) : (set_af16 s n).next_index_rp = s.next_index_rp := rfl

@[simp] theorem set_af16_dint (s : State) (n : Nat) : (set_af16 s n).disable_int = s.disable_int := rfl

@[simp] theorem on_nop_pfx (s : State) : (on_nop s).pfx = s.pfx := rfl

@[simp] theorem on_nop_next (s : State) : (on_nop s).next_index_rp = s.next_index_rp := rfl

@[simp] theorem on_nop_dint (s : State) : (on_nop s).disable_int = s.disable_int := rfl

@[simp] theorem on_noni_ed_pfx (op : Nat) (s : State) : (on_noni_ed op s).pfx = s.pfx := rfl

@[simp] theorem on_noni_ed_next (op : Nat) (s : State) : (on_noni_ed op s).next_index_rp = s.next_index_rp := rfl

@[simp] theorem on_noni_ed_dint (op : Nat) (s : State) : (on_noni_ed op s).disable_int = s.disable_int := rfl

@[simp] theorem on_di_pfx (s : State) : (on_di s).pfx = s.pfx := rfl

@[simp] theorem on_di_next (s : State) : (on_di s).next_index_rp = s.next_index_rp := rfl

@[simp] theorem on_di_dint (s : State) : (on_di s).disable_int = s.disable_int := rfl

@[simp] theorem on_ex_de_hl_pfx (s : State) : (on_ex_de_hl s).pfx = s.pfx := rfl

@[simp] theorem on_ex_de_hl_next (s : State) : (on_ex_de_hl s).next_index_rp = s.next_index_rp := rfl

@[simp] theorem on_ex_de_hl_dint (s : State) : (on_ex_de_hl s).disable_int = s.disable_int := rfl

@[simp] theorem on_exx_pfx (s : State) : (on_exx s).pfx = s.pfx := rfl

@[simp] theorem on_exx_next (s : State) : (on_exx s).next_index_rp = s.next_index_rp := rfl

@[simp] theorem on_exx_dint (s : State) : (on_exx s).disable_int = s.disable_int := rfl

@[simp] theorem on_im_pfx (m : Nat) (s : State) : (on_im m s).pfx = s.pfx := rfl

@[simp] theorem on_im_next (m : Nat) (s : State) : (on_im m s).next_index_rp = s.next_index_rp := rfl

@[simp] theorem on_im_dint (m : Nat) (s : State) : (on_im m s).disable_int = s.disable_int := rfl

@[simp] theorem on_ld_i_a_pfx (s : State) : (on_ld_i_a s).pfx = s.pfx := rfl

@[simp] theorem on_ld_i_a_next (s : State) : (on_ld_i_a s).next_index_rp = s.next_index_rp := rfl

@[simp] theorem on_ld_i_a_dint (s : State) : (on_ld_i_a s).disable_int = s.disable_int := rfl

@[simp] theorem on_ld_sp_irp_pfx (s : State) : (on_ld_sp_irp s).pfx = s.pfx := rfl

@[simp] theorem on_ld_sp_irp_next (s : State) : (on_ld_sp_irp s).next_index_rp = s.next_index_rp := rfl

@[simp] theorem on_ld_sp_irp_dint (s : State) : (on_ld_sp_irp s).disable_int = s.disable_int := rfl

@[simp] theorem on_jp_nn_pfx (nn : Nat) (s : State) : (on_jp_nn nn s).pfx = s.pfx := rfl

@[simp] theorem on_jp_nn_next (nn : Nat) (s : State) : (on_jp_nn nn s).next_index_rp = s.next_index_rp := rfl

@[simp] theorem on_jp_nn_dint (nn : Nat) (s : State) : (on_jp_nn nn s).disable_int = s.disable_int := rfl

@[simp] theorem on_jp_irp_pfx (s : State) : (on_jp_irp s).pfx = s.pfx := rfl

@[simp] theorem on_jp_irp_next (s : State) : (on_jp_irp s).next_index_rp = s.next_index_rp := rfl

@[simp] theorem on_jp_irp_dint (s : State) : (on_jp_irp s).disable_int = s.disable_int := rfl

@[simp] theorem on_push_pfx (nn : Nat) (s : State) : (on_push nn s).pfx = s.pfx := rfl

@[simp] theorem on_push_next (nn : Nat) (s : State) : (on_push nn s).next_index_rp = s.next_index_rp := rfl

@[simp] theorem on_push_dint (nn : Nat) (s : State) : (on_push nn s).disable_int = s.disable_int := rfl

@[simp] theorem on_pop_pfx (s : State) : (on_pop s).2.pfx = s.pfx := rfl

@[simp] theorem on_pop_next (s : State) : (on_pop s).2.next_index_rp = s.next_index_rp := rfl

@[simp] theorem on_pop_dint (s : State) : (on_pop s).2.disable_int = s.disable_int := rfl

@[simp] theorem on_call_pfx (nn : Nat) (s : State) : (on_call nn s).pfx = s.pfx := rfl

@[simp] theorem on_call_next (nn : Nat) (s : State) : (on_call nn s).next_index_rp = s.next_index_rp := rfl

@[simp] theorem on_call_dint (nn : Nat) (s : State) : (on_call nn s).disable_int = s.disable_int := rfl

@[simp] theorem on_call_nn_pfx (nn : Nat) (s : State) : (on_call_nn nn s).pfx = s.pfx := rfl

@[simp] theorem on_call_nn_next (nn : Nat) (s : State) : (on_call_nn nn s).next_index_rp = s.next_index_rp := rfl

@[simp] theorem on_call_nn_dint (nn : Nat) (s : State) : (on_call_nn nn s).disable_int = s.disable_int := rfl

@[simp] theorem on_return_pfx (s : State) : (on_return s).pfx = s.pfx := rfl

@[simp] theorem on_return_next (s : State) : (on_return s).next_index_rp = s.next_index_rp := rfl

@[simp] theorem on_return_dint (s : State) : (on_return s).disable_int = s.disable_int := rfl

@[simp] theorem on_ret_pfx (s : State) : (on_ret s).pfx = s.pfx := rfl

@[simp] theorem on_ret_next (s : State) : (on_ret s).next_index_rp = s.next_index_rp := rfl

@[simp] theorem on_ret_dint (s : State) : (on_ret s).disable_int = s.disable_int := rfl

@[simp] theorem on_relative_jump_pfx (d : Nat) (s : State) : (on_relative_jump d s).pfx = s.pfx := rfl

@[simp] theorem on_relative_jump_next (d : Nat) (s : State) : (on_relative_jump d s).next_index_rp = s.next_index_rp := rfl

@[simp] theorem on_relative_jump_dint (d : Nat) (s : State) : (on_relative_jump d s).disable_int = s.disable_int := rfl

@[simp] theorem on_jr_pfx (d : Nat) (s : State) : (on_jr d s).pfx = s.pfx := rfl

@[simp] theorem on_jr_next (d : Nat) (s : State) : (on_jr d s).next_index_rp = s.next_index_rp := rfl

@[simp] theorem on_jr_dint (d : Nat) (s : State) : (on_jr d s).disable_int = s.disable_int := rfl

@[simp] theorem on_push_rp_pfx (rp : RegP2) (s : State) : (on_push_rp rp s).pfx = s.pfx := rfl

@[simp] theorem on_push_rp_next (rp : RegP2) (s : State) : (on_push_rp rp s).next_index_rp = s.next_index_rp := rfl

@[simp] theorem on_push_rp_dint (rp : RegP2) (s : State) : (on_push_rp rp s).disable_int = s.disable_int := rfl

@[simp] theorem on_ld_at_nn_irp_pfx (nn : Nat) (s : State) : (on_ld_at_nn_irp nn s).pfx = s.pfx := rfl

@[simp] theorem on_ld_at_nn_irp_next (nn : Nat) (s : State) : (on_ld_at_nn_irp nn s).next_index_rp = s.next_index_rp := rfl

@[simp] theorem on_ld_at_nn_irp_dint (nn : Nat) (s : State) : (on_ld_at_nn_irp nn s).disable_int = s.disable_int := rfl

@[simp] theorem on_ld_at_nn_rp_pfx (nn : Nat) (rp : RegP) (s : State) : (on_ld_at_nn_rp nn rp s).pfx = s.pfx := rfl

@[simp] theorem on_ld_at_nn_rp_next (nn : Nat) (rp : RegP) (s : State) : (on_ld_at_nn_rp nn rp s).next_index_rp = s.next_index_rp := rfl

@[simp] theorem on_ld_at_nn_rp_dint (nn : Nat) (rp : RegP) (s : State) : (on_ld_at_nn_rp nn rp s).disable_int = s.disable_int := rfl

@[simp] theorem on_ld_a_at_nn_pfx (nn : Nat) (s : State) : (on_ld_a_at_nn nn s).pfx = s.pfx := rfl

@[simp] theorem on_ld_a_at_nn_next (nn : Nat) (s : State) : (on_ld_a_at_nn nn s).next_index_rp = s.next_index_rp := rfl

@[simp] theorem on_ld_a_at_nn_dint (nn : Nat) (s : State) : (on_ld_a_at_nn nn s).disable_int = s.disable_int := rfl

@[simp] theorem on_ld_at_nn_a_pfx (nn : Nat) (s : State) : (on_ld_at_nn_a nn s).pfx = s.pfx := rfl

@[simp] theorem on_ld_at_nn_a_next (nn : Nat) (s : State) : (on_ld_at_nn_a nn s).next_index_rp = s.next_index_rp := rfl

@[simp] theorem on_ld_at_nn_a_dint (nn : Nat) (s : State) : (on_ld_at_nn_a nn s).disable_int = s.disable_int := rfl

@[simp] theorem on_out_n_a_pfx (n : Nat) (s : State) : (on_out_n_a n s).pfx = s.pfx := rfl

@[simp] theorem on_out_n_a_next (n : Nat) (s : State) : (on_out_n_a n s).next_index_rp = s.next_index_rp := rfl

@[simp] theorem on_out_n_a_dint (n : Nat) (s : State) : (on_out_n_a n s).disable_int = s.disable_int := rfl

@[simp] theorem on_scf_pfx (s : State) : (on_scf s).pfx = s.pfx := rfl

@[simp] theorem on_scf_next (s : State) : (on_scf s).next_index_rp = s.next_index_rp := rfl

@[simp] theorem on_scf_dint (s : State) : (on_scf s).disable_int = s.disable_int := rfl

@[simp] theorem on_ccf_pfx (s : State) : (on_ccf s).pfx = s.pfx := rfl

@[simp] theorem on_ccf_next (s : State) : (on_ccf s).next_index_rp = s.next_index_rp := rfl

@[simp] theorem on_ccf_dint (s : State) : (on_ccf s).disable_int = s.disable_int := rfl

@[simp] theorem on_rrca_pfx (s : State) : (on_rrca s).pfx = s.pfx := rfl

@[simp] theorem on_rrca_next (s : State) : (on_rrca s).next_index_rp = s.next_index_rp := rfl

@[simp] theorem on_rrca_dint (s : State) : (on_rrca s).disable_int = s.disable_int := rfl

@[simp] theorem on_adc_hl_rp_pfx (rp : RegP) (s : State) : (on_adc_hl_rp rp s).pfx = s.pfx := rfl

@[simp] theorem on_adc_hl_rp_next (rp : RegP) (s : State) : (on_adc_hl_rp rp s).next_index_rp = s.next_index_rp := rfl

@[simp] theorem on_adc_hl_rp_dint (rp : RegP) (s : State) : (on_adc_hl_rp rp s).disable_int = s.disable_int := rfl

@[simp] theorem on_sbc_hl_rp_pfx (rp : RegP) (s : State) : (on_sbc_hl_rp rp s).pfx = s.pfx := rfl

@[simp] theorem on_sbc_hl_rp_next (rp : RegP) (s : State) : (on_sbc_hl_rp rp s).next_index_rp = s.next_index_rp := rfl

@[simp] theorem on_sbc_hl_rp_dint (rp : RegP) (s : State) : (on_sbc_hl_rp rp s).disable_int = s.disable_int := rfl


@[simp] theorem on_ei_pfx (s : State) : (on_ei s).pfx = s.pfx := rfl

@[simp] theorem on_ei_next (s : State) : (on_ei s).next_index_rp = s.next_index_rp := rfl

@[simp] theorem on_ei_dint (s : State) : (on_ei s).disable_int = true := rfl

@[simp] theorem on_ed_pfx_pfx (s : State) : (on_ed_pfx s).pfx = Pfx.ed := rfl

@[simp] theorem on_ed_pfx_next (s : State) : (on_ed_pfx s).next_index_rp = s.next_index_rp := rfl

@[simp] theorem on_ed_pfx_dint (s : State) : (on_ed_pfx s).disable_int = s.disable_int := rfl

@[simp] theorem on_cb_pfx_pfx (s : State) : (on_cb_pfx s).pfx = Pfx.cb := rfl

@[simp] theorem on_cb_pfx_next (s : State) : (on_cb_pfx s).next_index_rp = s.index_rp := rfl

@[simp] theorem on_cb_pfx_dint (s : State) : (on_cb_pfx s).disable_int = s.disable_int := rfl

@[simp] theorem on_set_next_irp_pfx (irp : IndexRP) (s : State) : (on_set_next_irp irp s).pfx = s.pfx := rfl

@[simp] theorem on_set_next_irp_next (irp : IndexRP) (s : State) : (on_set_next_irp irp s).next_index_rp = irp := rfl

@[simp] theorem on_set_next_irp_dint (irp : IndexRP) (s : State) : (on_set_next_irp irp s).disable_int = true := rfl

@[simp] theorem read_at_disp_pfx (s : State) (d : Nat) (lg : Bool) : (read_at_disp s d lg).2.pfx = s.pfx := by
  unfold read_at_disp
  repeat' split
  all_goals simp_all

@[simp] theorem read_at_disp_next (s : State) (d : Nat) (lg : Bool) : (read_at_disp s d lg).2.next_index_rp = s.next_index_rp := by
  unfold read_at_disp
  repeat' split
  all_goals simp_all

@[simp] theorem read_at_disp_dint (s : State) (d : Nat) (lg : Bool) : (read_at_disp s d lg).2.disable_int = s.disable_int := by
  unfold read_at_disp
  repeat' split
  all_goals simp_all

@[simp] theorem write_at_disp_pfx (s : State) (d n : Nat) : (write_at_disp s d n).pfx = s.pfx := by
  unfold write_at_disp
  split <;> rfl

@[simp] theorem write_at_disp_next (s : State) (d n : Nat) : (write_at_disp s d n).next_index_rp = s.next_index_rp := by
  unfold write_at_disp
  split <;> rfl

@[simp] theorem write_at_disp_dint (s : State) (d n : Nat) : (write_at_disp s d n).disable_int = s.disable_int := by
  unfold write_at_disp
  split <;> rfl

@[simp] theorem on_get_r_pfx (s : State) (r : Reg) (d : Nat) (lg : Bool) : (on_get_r s r d lg).2.pfx = s.pfx := by
  cases r <;> simp [on_get_r]

@[simp] theorem on_get_r_next (s : State) (r : Reg) (d : Nat) (lg : Bool) : (on_get_r s r d lg).2.next_index_rp = s.next_index_rp := by
  cases r <;> simp [on_get_r]

@[simp] theorem on_get_r_dint (s : State) (r : Reg) (d : Nat) (lg : Bool) : (on_get_r s r d lg).2.disable_int = s.disable_int := by
  cases r <;> simp [on_get_r]

@[simp] theorem on_set_r_pfx (s : State) (r : Reg) (d n : Nat) : (on_set_r s r d n).pfx = s.pfx := by
  cases r <;> simp [on_set_r]

@[simp] theorem on_set_r_next (s : State) (r : Reg) (d n : Nat) : (on_set_r s r d n).next_index_rp = s.next_index_rp := by
  cases r <;> simp [on_set_r]

@[simp] theorem on_set_r_dint (s : State) (r : Reg) (d n : Nat) : (on_set_r s r d n).disable_int = s.disable_int := by
  cases r <;> simp [on_set_r]

@[simp] theorem on_set_index_rp_pfx (s : State) (nn : Nat) : (on_set_index_rp s nn).pfx = s.pfx := by
  simp only [on_set_index_rp]
  repeat' split
  all_goals simp_all

@[simp] theorem on_set_index_rp_next (s : State) (nn : Nat) : (on_set_index_rp s nn).next_index_rp = s.next_index_rp := by
  simp only [on_set_index_rp]
  repeat' split
  all_goals simp_all

@[simp] theorem on_set_index_rp_dint (s : State) (nn : Nat) : (on_set_index_rp s nn).disable_int = s.disable_int := by
  simp only [on_set_index_rp]
  repeat' split
  all_goals simp_all

@[simp] theorem on_set_rp_pfx (s : State) (rp : RegP) (nn : Nat) : (on_set_rp s rp nn).pfx = s.pfx := by
  cases rp <;> simp [on_set_rp]

@[simp] theorem on_set_rp_next (s : State) (rp : RegP) (nn : Nat) : (on_set_rp s rp nn).next_index_rp = s.next_index_rp := by
  cases rp <;> simp [on_set_rp]

@[simp] theorem on_set_rp_dint (s : State) (rp : RegP) (nn : Nat) : (on_set_rp s rp nn).disable_int = s.disable_int := by
  cases rp <;> simp [on_set_rp]

@[simp] theorem on_set_rp2_pfx (s : State) (rp : RegP2) (nn : Nat) : (on_set_rp2 s rp nn).pfx = s.pfx := by
  cases rp <;> simp [on_set_rp2]

@[simp] theorem on_set_rp2_next (s : State) (rp : RegP2) (nn : Nat) : (on_set_rp2 s rp nn).next_index_rp = s.next_index_rp := by
  cases rp <;> simp [on_set_rp2]

@[simp] theorem on_set_rp2_dint (s : State) (rp : RegP2) (nn : Nat) : (on_set_rp2 s rp nn).disable_int = s.disable_int := by
  cases rp <;> simp [on_set_rp2]

@[simp] theorem on_ld_r_r_pfx (rd rs : Reg) (d : Nat) (s : State) : (on_ld_r_r rd rs d s).pfx = s.pfx := by
  simp [on_ld_r_r]

@[simp] theorem on_ld_r_r_next (rd rs : Reg) (d : Nat) (s : State) : (on_ld_r_r rd rs d s).next_index_rp = s.next_index_rp := by
  simp [on_ld_r_r]

@[simp] theorem on_ld_r_r_dint (rd rs : Reg) (d : Nat) (s : State) : (on_ld_r_r rd rs d s).disable_int = s.disable_int := by
  simp [on_ld_r_r]

@[simp] theorem on_ld_r_n_pfx (r : Reg) (d n : Nat) (s : State) : (on_ld_r_n r d n s).pfx = s.pfx := by
  simp [on_ld_r_n]

@[simp] theorem on_ld_r_n_next (r : Reg) (d n : Nat) (s : State) : (on_ld_r_n r d n s).next_index_rp = s.next_index_rp := by
  simp [on_ld_r_n]

@[simp] theorem on_ld_r_n_dint (r : Reg) (d n : Nat) (s : State) : (on_ld_r_n r d n s).disable_int = s.disable_int := by
  simp [on_ld_r_n]

@[simp] theorem on_inc_r_pfx (r : Reg) (d : Nat) (s : State) : (on_inc_r r d s).pfx = s.pfx := by
  simp [on_inc_r]

@[simp] theorem on_inc_r_next (r : Reg) (d : Nat) (s : State) : (on_inc_r r d s).next_index_rp = s.next_index_rp := by
  simp [on_inc_r]

@[simp] theorem on_inc_r_dint (r : Reg) (d : Nat) (s : State) : (on_inc_r r d s).disable_int = s.disable_int := by
  simp [on_inc_r]

@[simp] theorem on_dec_r_pfx (r : Reg) (d : Nat) (s : State) : (on_dec_r r d s).pfx = s.pfx := by
  simp [on_dec_r]

@[simp] theorem on_dec_r_next (r : Reg) (d : Nat) (s : State) : (on_dec_r r d s).next_index_rp = s.next_index_rp := by
  simp [on_dec_r]

@[simp] theorem on_dec_r_dint (r : Reg) (d : Nat) (s : State) : (on_dec_r r d s).disable_int = s.disable_int := by
  simp [on_dec_r]

@[simp] theorem on_inc_rp_pfx (rp : RegP) (s : State) : (on_inc_rp rp s).pfx = s.pfx := by
  simp [on_inc_rp]

@[simp] theorem on_inc_rp_next (rp : RegP) (s : State) : (on_inc_rp rp s).next_index_rp = s.next_index_rp := by
  simp [on_inc_rp]

@[simp] theorem on_inc_rp_dint (rp : RegP) (s : State) : (on_inc_rp rp s).disable_int = s.disable_int := by
  simp [on_inc_rp]

@[simp] theorem on_dec_rp_pfx (rp : RegP) (s : State) : (on_dec_rp rp s).pfx = s.pfx := by
  simp [on_dec_rp]

@[simp] theorem on_dec_rp_next (rp : RegP) (s : State) : (on_dec_rp rp s).next_index_rp = s.next_index_rp := by
  simp [on_dec_rp]

@[simp] theorem on_dec_rp_dint (rp : RegP) (s : State) : (on_dec_rp rp s).disable_int = s.disable_int := by
  simp [on_dec_rp]

@[simp] theorem on_ld_rp_nn_pfx (rp : RegP) (nn : Nat) (s : State) : (on_ld_rp_nn rp nn s).pfx = s.pfx := by
  simp [on_ld_rp_nn]

@[simp] theorem on_ld_rp_nn_next (rp : RegP) (nn : Nat) (s : State) : (on_ld_rp_nn rp nn s).next_index_rp = s.next_index_rp := by
  simp [on_ld_rp_nn]

@[simp] theorem on_ld_rp_nn_dint (rp : RegP) (nn : Nat) (s : State) : (on_ld_rp_nn rp nn s).disable_int = s.disable_int := by
  simp [on_ld_rp_nn]

@[simp] theorem on_add_irp_rp_pfx (rp : RegP) (s : State) : (on_add_irp_rp rp s).pfx = s.pfx := by
  simp [on_add_irp_rp]

@[simp] theorem on_add_irp_rp_next (rp : RegP) (s : State) : (on_add_irp_rp rp s).next_index_rp = s.next_index_rp := by
  simp [on_add_irp_rp]

@[simp] theorem on_add_irp_rp_dint (rp : RegP) (s : State) : (on_add_irp_rp rp s).disable_int = s.disable_int := by
  simp [on_add_irp_rp]

@[simp] theorem on_ret_cc_pfx (cc : Cond) (s : State) : (on_ret_cc cc s).pfx = s.pfx := by
  simp only [on_ret_cc]
  repeat' split
  all_goals simp_all

@[simp] theorem on_ret_cc_next (cc : Cond) (s : State) : (on_ret_cc cc s).next_index_rp = s.next_index_rp := by
  simp only [on_ret_cc]
  repeat' split
  all_goals simp_all

@[simp] theorem on_ret_cc_dint (cc : Cond) (s : State) : (on_ret_cc cc s).disable_int = s.disable_int := by
  simp only [on_ret_cc]
  repeat' split
  all_goals simp_all

@[simp] theorem on_jr_cc_pfx (cc : Cond) (d : Nat) (s : State) : (on_jr_cc cc d s).pfx = s.pfx := by
  simp only [on_jr_cc]
  repeat' split
  all_goals simp_all

@[simp] theorem on_jr_cc_next (cc : Cond) (d : Nat) (s : State) : (on_jr_cc cc d s).next_index_rp = s.next_index_rp := by
  simp only [on_jr_cc]
  repeat' split
  all_goals simp_all

@[simp] theorem on_jr_cc_dint (cc : Cond) (d : Nat) (s : State) : (on_jr_cc cc d s).disable_int = s.disable_int := by
  simp only [on_jr_cc]
  repeat' split
  all_goals simp_all

@[simp] theorem on_djnz_pfx (d : Nat) (s : State) : (on_djnz d s).pfx = s.pfx := by
  simp only [on_djnz]
  repeat' split
  all_goals simp_all

@[simp] theorem on_djnz_next (d : Nat) (s : State) : (on_djnz d s).next_index_rp = s.next_index_rp := by
  simp only [on_djnz]
  repeat' split
  all_goals simp_all

@[simp] theorem on_djnz_dint (d : Nat) (s : State) : (on_djnz d s).disable_int = s.disable_int := by
  simp only [on_djnz]
  repeat' split
  all_goals simp_all

@[simp] theorem on_pop_rp_pfx (rp : RegP2) (s : State) : (on_pop_rp rp s).pfx = s.pfx := by
  simp [on_pop_rp]

@[simp] theorem on_pop_rp_next (rp : RegP2) (s : State) : (on_pop_rp rp s).next_index_rp = s.next_index_rp := by
  simp [on_pop_rp]

@[simp] theorem on_pop_rp_dint (rp : RegP2) (s : State) : (on_pop_rp rp s).disable_int = s.disable_int := by
  simp [on_pop_rp]

@[simp] theorem on_ld_irp_at_nn_pfx (nn : Nat) (s : State) : (on_ld_irp_at_nn nn s).pfx = s.pfx := by
  simp [on_ld_irp_at_nn]

@[simp] theorem on_ld_irp_at_nn_next (nn : Nat) (s : State) : (on_ld_irp_at_nn nn s).next_index_rp = s.next_index_rp := by
  simp [on_ld_irp_at_nn]

@[simp] theorem on_ld_irp_at_nn_dint (nn : Nat) (s : State) : (on_ld_irp_at_nn nn s).disable_int = s.disable_int := by
  simp [on_ld_irp_at_nn]

@[simp] theorem on_ld_rp_at_nn_pfx (rp : RegP) (nn : Nat) (s : State) : (on_ld_rp_at_nn rp nn s).pfx = s.pfx := by
  simp [on_ld_rp_at_nn]

@[simp] theorem on_ld_rp_at_nn_next (rp : RegP) (nn : Nat) (s : State) : (on_ld_rp_at_nn rp nn s).next_index_rp = s.next_index_rp := by
  simp [on_ld_rp_at_nn]

@[simp] theorem on_ld_rp_at_nn_dint (rp : RegP) (nn : Nat) (s : State) : (on_ld_rp_at_nn rp nn s).disable_int = s.disable_int := by
  simp [on_ld_rp_at_nn]

@[simp] theorem on_bit_pfx (b : Nat) (r : Reg) (d : Nat) (s : State) : (on_bit b r d s).pfx = s.pfx := by
  simp [on_bit]

@[simp] theorem on_bit_next (b : Nat) (r : Reg) (d : Nat) (s : State) : (on_bit b r d s).next_index_rp = s.next_index_rp := by
  simp [on_bit]

@[simp] theorem on_bit_dint (b : Nat) (r : Reg) (d : Nat) (s : State) : (on_bit b r d s).disable_int = s.disable_int := by
  simp [on_bit]

@[simp] theorem on_res_pfx (b : Nat) (r : Reg) (d : Nat) (s : State) : (on_res b r d s).pfx = s.pfx := by
  simp only [on_res]
  repeat' split
  all_goals simp_all

@[simp] theorem on_res_next (b : Nat) (r : Reg) (d : Nat) (s : State) : (on_res b r d s).next_index_rp = s.next_index_rp := by
  simp only [on_res]
  repeat' split
  all_goals simp_all

@[simp] theorem on_res_dint (b : Nat) (r : Reg) (d : Nat) (s : State) : (on_res b r d s).disable_int = s.disable_int := by
  simp only [on_res]
  repeat' split
  all_goals simp_all

@[simp] theorem on_set_pfx (b : Nat) (r : Reg) (d : Nat) (s : State) : (on_set b r d s).pfx = s.pfx := by
  simp only [on_set]
  repeat' split
  all_goals simp_all

@[simp] theorem on_set_next (b : Nat) (r : Reg) (d : Nat) (s : State) : (on_set b r d s).next_index_rp = s.next_index_rp := by
  simp only [on_set]
  repeat' split
  all_goals simp_all

@[simp] theorem on_set_dint (b : Nat) (r : Reg) (d : Nat) (s : State) : (on_set b r d s).disable_int = s.disable_int := by
  simp only [on_set]
  repeat' split
  all_goals simp_all

@[simp] theorem on_block_ld_pfx (k : BlockLd) (s : State) : (on_block_ld k s).pfx = s.pfx := by
  simp only [on_block_ld]
  repeat' split
  all_goals simp_all

@[simp] theorem on_block_ld_next (k : BlockLd) (s : State) : (on_block_ld k s).next_index_rp = s.next_index_rp := by
  simp only [on_block_ld]
  repeat' split
  all_goals simp_all

@[simp] theorem on_block_ld_dint (k : BlockLd) (s : State) : (on_block_ld k s).disable_int = s.disable_int := by
  simp only [on_block_ld]
  repeat' split
  all_goals simp_all

@[simp] theorem read_disp_or_null_pfx (s : State) (m : Bool) : (read_disp_or_null s m).2.pfx = s.pfx := by
  simp only [read_disp_or_null]
  repeat' split
  all_goals simp_all

@[simp] theorem read_disp_or_null_next (s : State) (m : Bool) : (read_disp_or_null s m).2.next_index_rp = s.next_index_rp := by
  simp only [read_disp_or_null]
  repeat' split
  all_goals simp_all

@[simp] theorem read_disp_or_null_dint (s : State) (m : Bool) : (read_disp_or_null s m).2.disable_int = s.disable_int := by
  simp only [read_disp_or_null]
  repeat' split
  all_goals simp_all

theorem do_alu_frame {k : Alu} {n : Nat} {s t : State} (h : do_alu k n s = some t) :
    t.pfx = s.pfx ∧ t.next_index_rp = s.next_index_rp ∧ t.disable_int = s.disable_int := by
  cases k <;> simp [do_alu] at h <;> subst h <;> simp

theorem on_alu_r_frame {k : Alu} {r : Reg} {d : Nat} {s t : State}
    (h : on_alu_r k r d s = some t) :
    t.pfx = s.pfx ∧ t.next_index_rp = s.next_index_rp ∧ t.disable_int = s.disable_int := by
  unfold on_alu_r at h
  have h2 := do_alu_frame h
  simpa using h2

theorem on_alu_n_frame {k : Alu} {n : Nat} {s t : State}
    (h : on_alu_n k n s = some t) :
    t.pfx = s.pfx ∧ t.next_index_rp = s.next_index_rp ∧ t.disable_int = s.disable_int := by
  unfold on_alu_n at h
  exact do_alu_frame h

@[simp] theorem on_fetch_fst (s : State) : (on_fetch s).1 = memRead s s.pc := rfl

@[simp] theorem on_3t_read_cycle_fst (s : State) (a : Nat) :
    (on_3t_read_cycle s a).1 = memRead s a := rfl

@[simp] theorem on_4t_read_cycle_fst (s : State) (a : Nat) :
    (on_4t_read_cycle s a).1 = memRead s a := rfl

@[simp] theorem on_5t_read_cycle_fst (s : State) (a : Nat) :
    (on_5t_read_cycle s a).1 = memRead s a := rfl

@[simp] theorem on_3t_imm8_read_fst (s : State) :
    (on_3t_imm8_read s).1 = memRead s s.pc := rfl

@[simp] theorem on_5t_imm8_read_fst (s : State) :
    (on_5t_imm8_read s).1 = memRead s s.pc := rfl

@[simp] theorem on_disp_read_fst (s : State) :
    (on_disp_read s).1 = memRead s s.pc := rfl

/-- Frame of the CB decoding dispatch: every completed path resets the
instruction state, and no CB handler touches the pending index pair or
`disable_int`. -/
theorem decode_cb_op_frame {op d : Nat} {s t : State}
    (h : decode_cb_op op d s = some t) :
    t.pfx = Pfx.none ∧ t.next_index_rp = s.next_index_rp ∧
      t.disable_int = s.disable_int := by
  simp only [decode_cb_op, Option.map_eq_some'] at h
  obtain ⟨u, hu, rfl⟩ := h
  repeat' split at hu
  all_goals first
    | exact Option.noConfusion hu
    | (injection hu with hu
       subst hu
       refine ⟨rfl, ?_, ?_⟩ <;> simp)

/-- Frame of `decode_cb` including the displacement pre-read. -/
theorem decode_cb_frame {s t : State} (h : decode_cb s = some t) :
    t.pfx = Pfx.none ∧ t.next_index_rp = s.next_index_rp ∧
      t.disable_int = s.disable_int := by
  simp only [decode_cb] at h
  obtain ⟨h1, h2, h3⟩ := decode_cb_op_frame h
  refine ⟨h1, ?_, ?_⟩
  · rw [h2]
    repeat' split
    all_goals simp
  · rw [h3]
    repeat' split
    all_goals simp

/-- Frame of the ED decoding dispatch. -/
theorem decode_ed_op_frame {op : Nat} {s t : State}
    (h : decode_ed_op op s = some t) :
    t.pfx = Pfx.none ∧ t.next_index_rp = s.next_index_rp ∧
      t.disable_int = s.disable_int := by
  simp only [decode_ed_op, Option.map_eq_some'] at h
  obtain ⟨u, hu, rfl⟩ := h
  repeat' split at hu
  all_goals first
    | exact Option.noConfusion hu
    | (injection hu with hu
       subst hu
       refine ⟨rfl, ?_, ?_⟩ <;> simp)

/-- Frame of `decode_ed` including the opcode fetch. -/
theorem decode_ed_frame {s t : State} (h : decode_ed s = some t) :
    t.pfx = Pfx.none ∧ t.next_index_rp = s.next_index_rp ∧
      t.disable_int = s.disable_int := by
  simp only [decode_ed] at h
  obtain ⟨h1, h2, h3⟩ := decode_ed_op_frame h
  exact ⟨h1, by rw [h2]; simp, by rw [h3]; simp⟩

set_option maxHeartbeats 1600000 in
/-- Frame of the last singleton dispatch chunk. -/
theorem decode_main_s4_frame {op : Nat} {s t : State}
    (h : decode_main_s4 op s = some t) :
    (op ≠ 203 → op ≠ 253 → t.next_index_rp = s.next_index_rp) ∧
    (op ≠ 203 → op ≠ 237 → t.pfx = s.pfx) ∧
    (s.disable_int = true → t.disable_int = true) := by
  unfold decode_main_s4 at h
  repeat' split at h
  all_goals first
    | exact Option.noConfusion h
    | (injection h with h
       subst h
       refine ⟨fun hx hy => ?_, fun hx hy => ?_, fun hd => ?_⟩ <;> simp_all)

set_option maxHeartbeats 1600000 in
/-- Frame of the third singleton dispatch chunk. -/
theorem decode_main_s3_frame {op : Nat} {s t : State}
    (h : decode_main_s3 op s = some t) :
    (op ≠ 203 → op ≠ 253 → t.next_index_rp = s.next_index_rp) ∧
    (op ≠ 203 → op ≠ 237 → t.pfx = s.pfx) ∧
    (s.disable_int = true → t.disable_int = true) := by
  unfold decode_main_s3 at h
  repeat' split at h
  all_goals first
    | exact Option.noConfusion h
    | exact decode_main_s4_frame h
    | (injection h with h
       subst h
       refine ⟨fun hx hy => ?_, fun hx hy => ?_, fun hd => ?_⟩ <;> simp_all)

set_option maxHeartbeats 1600000 in
/-- Frame of the second singleton dispatch chunk. -/
theorem decode_main_s2_frame {op : Nat} {s t : State}
    (h : decode_main_s2 op s = some t) :
    (op ≠ 203 → op ≠ 253 → t.next_index_rp = s.next_index_rp) ∧
    (op ≠ 203 → op ≠ 237 → t.pfx = s.pfx) ∧
    (s.disable_int = true → t.disable_int = true) := by
  unfold decode_main_s2 at h
  repeat' split at h
  all_goals first
    | exact Option.noConfusion h
    | exact decode_main_s3_frame h
    | (injection h with h
       subst h
       refine ⟨fun hx hy => ?_, fun hx hy => ?_, fun hd => ?_⟩ <;> simp_all)

set_option maxHeartbeats 1600000 in
/-- Frame of the singleton dispatch head. -/
theorem decode_main_s1_frame {op : Nat} {s t : State}
    (h : decode_main_s1 op s = some t) :
    (op ≠ 203 → op ≠ 253 → t.next_index_rp = s.next_index_rp) ∧
    (op ≠ 203 → op ≠ 237 → t.pfx = s.pfx) ∧
    (s.disable_int = true → t.disable_int = true) := by
  unfold decode_main_s1 at h
  repeat' split at h
  all_goals first
    | exact Option.noConfusion h
    | exact decode_main_s2_frame h
    | (injection h with h
       subst h
       refine ⟨fun hx hy => ?_, fun hx hy => ?_, fun hd => ?_⟩ <;> simp_all)

set_option maxHeartbeats 1600000 in
/-- Frame of the q-group dispatch. -/
theorem decode_main_q_frame {op : Nat} {s t : State}
    (h : decode_main_q op s = some t) :
    (op ≠ 203 → op ≠ 253 → t.next_index_rp = s.next_index_rp) ∧
    (op ≠ 203 → op ≠ 237 → t.pfx = s.pfx) ∧
    (s.disable_int = true → t.disable_int = true) := by
  unfold decode_main_q at h
  repeat' split at h
  all_goals first
    | exact Option.noConfusion h
    | exact decode_main_s1_frame h
    | (injection h with h
       subst h
       refine ⟨fun hx hy => ?_, fun hx hy => ?_, fun hd => ?_⟩ <;> simp_all)

set_option maxHeartbeats 1600000 in
/-- Frame of the JR cc test. -/
theorem decode_main_jr_frame {op : Nat} {s t : State}
    (h : decode_main_jr op s = some t) :
    (op ≠ 203 → op ≠ 253 → t.next_index_rp = s.next_index_rp) ∧
    (op ≠ 203 → op ≠ 237 → t.pfx = s.pfx) ∧
    (s.disable_int = true → t.disable_int = true) := by
  unfold decode_main_jr at h
  repeat' split at h
  all_goals first
    | exact Option.noConfusion h
    | exact decode_main_q_frame h
    | (injection h with h
       subst h
       refine ⟨fun hx hy => ?_, fun hx hy => ?_, fun hd => ?_⟩ <;> simp_all)

set_option maxHeartbeats 1600000 in
/-- Frame of the x-z dispatch. -/
theorem decode_main_xz_frame {op : Nat} {s t : State}
    (h : decode_main_xz op s = some t) :
    (op ≠ 203 → op ≠ 253 → t.next_index_rp = s.next_index_rp) ∧
    (op ≠ 203 → op ≠ 237 → t.pfx = s.pfx) ∧
    (s.disable_int = true → t.disable_int = true) := by
  simp only [decode_main_xz] at h
  repeat' split at h
  all_goals first
    | exact Option.noConfusion h
    | exact decode_main_jr_frame h
    | (injection h with h
       subst h
       refine ⟨fun hx hy => ?_, fun hx hy => ?_, fun hd => ?_⟩ <;> simp_all)
    | (obtain ⟨h1, h2, h3⟩ := on_alu_n_frame h
       refine ⟨fun _ _ => ?_, fun _ _ => ?_, fun hd => ?_⟩ <;> simp_all)

set_option maxHeartbeats 1600000 in
/-- Frame of the unprefixed decoding dispatch: only the CB-prefix case
re-arms the pending index pair with the current one, only 0xFD sets it to
IY, only the CB/ED prefix bytes leave the instruction state armed, and
`disable_int`, once true, is never turned off by any path. -/
theorem decode_main_op_frame {op : Nat} {s t : State}
    (h : decode_main_op op s = some t) :
    (op ≠ 203 → op ≠ 253 → t.next_index_rp = s.next_index_rp) ∧
    (op ≠ 203 → op ≠ 237 → t.pfx = s.pfx) ∧
    (s.disable_int = true → t.disable_int = true) := by
  simp only [decode_main_op] at h
  repeat' split at h
  all_goals first
    | exact Option.noConfusion h
    | exact decode_main_xz_frame h
    | (injection h with h
       subst h
       refine ⟨fun hx hy => ?_, fun hx hy => ?_, fun hd => ?_⟩ <;> simp_all)
    | (obtain ⟨h1, h2, h3⟩ := on_alu_r_frame h
       refine ⟨fun _ _ => ?_, fun _ _ => ?_, fun hd => ?_⟩ <;> simp_all)

/-- Frame of `decode_main` including the opcode fetch. -/
theorem decode_main_frame {s t : State} (h : decode_main s = some t) :
    (memRead s s.pc ≠ 203 → memRead s s.pc ≠ 253 →
      t.next_index_rp = s.next_index_rp) ∧
    (memRead s s.pc ≠ 203 → memRead s s.pc ≠ 237 → t.pfx = s.pfx) ∧
    (s.disable_int = true → t.disable_int = true) := by
  simp only [decode_main, on_fetch_fst] at h
  obtain ⟨h1, h2, h3⟩ := decode_main_op_frame h
  exact ⟨fun ha hb => by rw [h1 ha hb]; simp,
    fun ha hb => by rw [h2 ha hb]; simp,
    fun hd => h3 (by simpa using hd)⟩

/-- Reduction of `step` in the no-instruction state: latch the index
pair, then decode the unprefixed table. -/
theorem step_none (s : State) (h : s.pfx = Pfx.none) :
    step s =
      decode_main { s with index_rp := s.next_index_rp,
                           next_index_rp := IndexRP.hl } := by
  unfold step on_decode
  simp only [h]

/-- Reduction of `step` in the ED decoding state. -/
theorem step_ed (s : State) (h : s.pfx = Pfx.ed) :
    step s =
      decode_ed { s with index_rp := s.next_index_rp,
                         next_index_rp := IndexRP.hl } := by
  unfold step on_decode
  simp only [h]

/-- Reduction of `step` in the CB decoding state. -/
theorem step_cb (s : State) (h : s.pfx = Pfx.cb) :
    step s =
      decode_cb { s with index_rp := s.next_index_rp,
                         next_index_rp := IndexRP.hl } := by
  unfold step on_decode
  simp only [h]

/-- Unfolding of `decode_main` through the opcode fetch. -/
theorem decode_main_at (s : State) :
    decode_main s = decode_main_op (memRead s s.pc)
      { s with ticks := s.ticks + 4, last_read_addr := s.pc &&& 65535,
               pc := inc16 s.pc } := rfl

/-- Unfolding of `decode_ed` through the opcode fetch. -/
theorem decode_ed_at (s : State) :
    decode_ed s = decode_ed_op (memRead s s.pc)
      { s with ticks := s.ticks + 4, last_read_addr := s.pc &&& 65535,
               pc := inc16 s.pc } := rfl

/-- Dispatch of the 0xED prefix byte. -/
theorem decode_main_op_ed (s : State) :
    decode_main_op 237 s = some (on_ed_pfx s) := by
  simp +decide [decode_main_op, decode_main_xz, decode_main_jr, decode_main_q,
    decode_main_s1, decode_main_s2, decode_main_s3]

/-- Dispatch of the 0xFB (EI) opcode. -/
theorem decode_main_op_ei (s : State) :
    decode_main_op 251 s = some (on_ei s) := by
  simp +decide [decode_main_op, decode_main_xz, decode_main_jr, decode_main_q,
    decode_main_s1, decode_main_s2, decode_main_s3, decode_main_s4]

/-- Dispatch of the 0xFD (IY) prefix byte. -/
theorem decode_main_op_fd (s : State) :
    decode_main_op 253 s = some (on_set_next_irp IndexRP.iy s) := by
  simp +decide [decode_main_op, decode_main_xz, decode_main_jr, decode_main_q,
    decode_main_s1, decode_main_s2, decode_main_s3, decode_main_s4]

/-- The 0xDD prefix byte has no case in the source's decoder: it falls
through every dispatch to the `std::abort()` arm. -/
theorem decode_main_op_dd (s : State) : decode_main_op 221 s = none := by
  simp +decide [decode_main_op, decode_main_xz, decode_main_jr, decode_main_q,
    decode_main_s1, decode_main_s2, decode_main_s3, decode_main_s4]

/-- Dispatch of the ED 0xB0 (LDIR) opcode. -/
theorem decode_ed_op_ldir (s : State) :
    decode_ed_op 176 s = some { on_block_ld BlockLd.ldir s with pfx := Pfx.none } := by
  simp +decide [decode_ed_op, blkOf]

/-- Dispatch of the four decoded NONI slots of the ED table
(x = 2, z = 0, y < 4: opcodes 0x80, 0x88, 0x90, 0x98). -/
theorem decode_ed_op_noni {op : Nat}
    (h : op = 128 ∨ op = 136 ∨ op = 144 ∨ op = 152) (s : State) :
    decode_ed_op op s = some { s with pfx := Pfx.none } := by
  rcases h with rfl | rfl | rfl | rfl <;> simp +decide [decode_ed_op, on_noni_ed]

/-- Every ED opcode outside the decoded slots reaches the
`std::abort()` arm. -/
theorem decode_ed_op_abort {op : Nat} (h1 : op &&& 199 ≠ 66)
    (h2 : op &&& 199 ≠ 67) (h3 : op &&& 199 ≠ 70) (h4 : op &&& 199 ≠ 128)
    (h5 : op ≠ 71) (s : State) : decode_ed_op op s = none := by
  simp [decode_ed_op, h1, h2, h3, h4, h5]

@[simp] theorem memRead_eq (s : State) (addr : Nat) :
    memRead s addr = s.mem (addr % 65536) % 256 := by
  unfold memRead
  rw [and_65535, and_255]

/-- One step that fetches the 0xED prefix byte: only the decoder state,
PC, the tick counter and the read diagnostics change. -/
theorem step_ed_fetch (s : State) (hpfx : s.pfx = Pfx.none)
    (hop : memRead s s.pc = 237) :
    step s = some { s with index_rp := s.next_index_rp,
                           next_index_rp := IndexRP.hl, ticks := s.ticks + 4,
                           last_read_addr := s.pc % 65536,
                           pc := (s.pc + 1) % 65536, pfx := Pfx.ed } := by
  rw [step_none s hpfx, decode_main_at]
  have h2 : memRead { s with index_rp := s.next_index_rp,
                              next_index_rp := IndexRP.hl }
      ({ s with index_rp := s.next_index_rp,
                next_index_rp := IndexRP.hl } : State).pc = 237 := hop
  rw [h2, decode_main_op_ed]
  simp [on_ed_pfx, and_65535]

/-- One step that fetches and executes EI. -/
theorem step_ei_exec (s : State) (hpfx : s.pfx = Pfx.none)
    (hop : memRead s s.pc = 251) :
    step s = some { s with index_rp := s.next_index_rp,
                           next_index_rp := IndexRP.hl, ticks := s.ticks + 4,
                           last_read_addr := s.pc % 65536,
                           pc := (s.pc + 1) % 65536, iff1 := true,
                           iff2 := true, disable_int := true } := by
  rw [step_none s hpfx, decode_main_at]
  have h2 : memRead { s with index_rp := s.next_index_rp,
                              next_index_rp := IndexRP.hl }
      ({ s with index_rp := s.next_index_rp,
                next_index_rp := IndexRP.hl } : State).pc = 251 := hop
  rw [h2, decode_main_op_ei]
  simp [on_ei, and_65535]

/-- One step that fetches the 0xFD prefix byte: the pending index pair
becomes IY and `disable_int` is set. -/
theorem step_fd_fetch (s : State) (hpfx : s.pfx = Pfx.none)
    (hop : memRead s s.pc = 253) :
    step s = some { s with index_rp := s.next_index_rp,
                           next_index_rp := IndexRP.iy, ticks := s.ticks + 4,
                           last_read_addr := s.pc % 65536,
                           pc := (s.pc + 1) % 65536, disable_int := true } := by
  rw [step_none s hpfx, decode_main_at]
  have h2 : memRead { s with index_rp := s.next_index_rp,
                              next_index_rp := IndexRP.hl }
      ({ s with index_rp := s.next_index_rp,
                next_index_rp := IndexRP.hl } : State).pc = 253 := hop
  rw [h2, decode_main_op_fd]
  simp [on_set_next_irp, and_65535]

/-- One step that fetches the 0xDD prefix byte aborts: the source's
decoder has no case for it. -/
theorem step_dd_abort (s : State) (hpfx : s.pfx = Pfx.none)
    (hop : memRead s s.pc = 221) :
    step s = none := by
  rw [step_none s hpfx, decode_main_at]
  have h2 : memRead { s with index_rp := s.next_index_rp,
                              next_index_rp := IndexRP.hl }
      ({ s with index_rp := s.next_index_rp,
                next_index_rp := IndexRP.hl } : State).pc = 221 := hop
  rw [h2, decode_main_op_dd]

/-- One step in the ED decoding state whose opcode is a decoded NONI
slot: nothing changes beyond the fetch itself and the decoder state. -/
theorem step_ed_noni (s : State) (hpfx : s.pfx = Pfx.ed)
    (hop : memRead s s.pc = 128 ∨ memRead s s.pc = 136 ∨
      memRead s s.pc = 144 ∨ memRead s s.pc = 152) :
    step s = some { s with index_rp := s.next_index_rp,
                           next_index_rp := IndexRP.hl, ticks := s.ticks + 4,
                           last_read_addr := s.pc % 65536,
                           pc := (s.pc + 1) % 65536, pfx := Pfx.none } := by
  rw [step_ed s hpfx, decode_ed_at]
  have h2 : memRead { s with index_rp := s.next_index_rp,
                              next_index_rp := IndexRP.hl }
      ({ s with index_rp := s.next_index_rp,
                next_index_rp := IndexRP.hl } : State).pc = memRead s s.pc := rfl
  rw [h2, decode_ed_op_noni hop]
  simp [and_65535]

/-- One step in the ED decoding state with opcode 0xB0 (LDIR): fetch
then the block-load handler, with the instruction state reset. -/
theorem step_ldir_exec (s : State) (hpfx : s.pfx = Pfx.ed)
    (hop : memRead s s.pc = 176) :
    step s = some { on_block_ld BlockLd.ldir
                      { s with index_rp := s.next_index_rp,
                               next_index_rp := IndexRP.hl,
                               ticks := s.ticks + 4,
                               last_read_addr := s.pc % 65536,
                               pc := (s.pc + 1) % 65536 } with
                      pfx := Pfx.none } := by
  rw [step_ed s hpfx, decode_ed_at]
  have h2 : memRead { s with index_rp := s.next_index_rp,
                              next_index_rp := IndexRP.hl }
      ({ s with index_rp := s.next_index_rp,
                next_index_rp := IndexRP.hl } : State).pc = 176 := hop
  rw [h2, decode_ed_op_ldir]
  congr 2 <;> simp [and_65535]

/-- `stepN` splits over addition of step counts. -/
theorem stepN_add (a b : Nat) (s : State) :
    stepN (a + b) s = (stepN a s).bind (stepN b) := by
  induction a generalizing s with
  | zero => simp [stepN]
  | succ k ih =>
    rw [Nat.add_right_comm, stepN]
    cases hstep : step s with
    | none => simp [stepN, hstep]
    | some t => simp [stepN, hstep, ih]

/-- Cells outside the written range are untouched by the LDIR copy
description. -/
theorem ldirMem_apply_of_ne (m : Nat → Nat) (hl de j a : Nat)
    (h : ∀ i, i < j → (de + i) % 65536 ≠ a) : ldirMem m hl de j a = m a := by
  induction j with
  | zero => rfl
  | succ k ih =>
    show (if a = (de + k) % 65536 then _ else ldirMem m hl de k a) = m a
    rw [if_neg fun hc => h k (by omega) hc.symm]
    exact ih fun i hi => h i (by omega)

/-- `stepN 1` is a single step. -/
theorem stepN_one (s : State) : stepN 1 s = step s := by
  show (step s).bind (stepN 0) = step s
  cases step s <;> rfl

/-- `stepN 2` is two chained steps. -/
theorem stepN_two (s : State) : stepN 2 s = (step s).bind step := by
  show (step s).bind (stepN 1) = (step s).bind step
  cases step s <;> simp [stepN_one]

set_option maxHeartbeats 1600000 in
/-- Field-wise description of the LDIR execution handler: copy (HL) to
(DE), advance HL and DE, decrement BC; when BC is still nonzero, spend
the 5-tick exec cycle, latch PC+1 into MEMPTR and rewind PC by 2. -/
theorem block_ldir_spec (s2 : State) (hb0 : 0 < s2.bc) (hb16 : s2.bc < 65536)
    (hhl : s2.hl < 65536) (hde : s2.de < 65536) :
    (on_block_ld BlockLd.ldir s2).bc = s2.bc - 1 ∧
    (on_block_ld BlockLd.ldir s2).hl = (s2.hl + 1) % 65536 ∧
    (on_block_ld BlockLd.ldir s2).de = (s2.de + 1) % 65536 ∧
    (on_block_ld BlockLd.ldir s2).pc =
      (if s2.bc = 1 then s2.pc else sub16 s2.pc 2) ∧
    (on_block_ld BlockLd.ldir s2).memptr =
      (if s2.bc = 1 then s2.memptr else (s2.pc + 1) % 65536) ∧
    (on_block_ld BlockLd.ldir s2).ticks =
      s2.ticks + (if s2.bc = 1 then 8 else 13) ∧
    (on_block_ld BlockLd.ldir s2).mem =
      (fun x => if x = s2.de then s2.mem s2.hl % 256 else s2.mem x) := by
  have h256 : ∀ n : Nat, n % 256 % 256 = n % 256 := fun n => by omega
  have hde2 : s2.de % 65536 = s2.de := Nat.mod_eq_of_lt hde
  have hhl2 : s2.hl % 65536 = s2.hl := Nat.mod_eq_of_lt hhl
  have hmem : ∀ v : State, v.mem = s2.mem →
      (fun x => if x = (get_de16 s2) &&& 65535
        then (memRead s2 (get_hl16 s2)) &&& 255 else v.mem x) =
      (fun x => if x = s2.de then s2.mem s2.hl % 256 else s2.mem x) := by
    intro v hv
    funext x
    simp only [hv, and_255, memRead_eq, get_de16_eq, get_hl16_eq, and_65535,
      hde2, hhl2, h256]
  by_cases hb1 : s2.bc = 1
  · have hzero : dec16 (get_bc16 s2) = 0 := by
      rw [get_bc16_eq, dec16_eq, hb1]
    simp only [on_block_ld]
    rw [if_neg (by rw [hzero]; simp)]
    refine ⟨?_, ?_, ?_, ?_, ?_, ?_, ?_⟩
    · simp [set_f, on_5t_write_cycle, on_3t_read_cycle, memWrite, tick,
        get_bc16_eq, get_de16_eq, get_hl16_eq, BlockLd.toNat, hb1]
    · simp [set_f, on_5t_write_cycle, on_3t_read_cycle, memWrite, tick,
        get_bc16_eq, get_de16_eq, get_hl16_eq, BlockLd.toNat, hhl2]
    · simp [set_f, on_5t_write_cycle, on_3t_read_cycle, memWrite, tick,
        get_bc16_eq, get_de16_eq, get_hl16_eq, BlockLd.toNat, hde2]
    · simp [set_f, on_5t_write_cycle, on_3t_read_cycle, memWrite, tick, hb1]
    · simp [set_f, on_5t_write_cycle, on_3t_read_cycle, memWrite, tick, hb1]
    · simp [set_f, on_5t_write_cycle, on_3t_read_cycle, memWrite, tick, hb1]
    · exact hmem _ rfl
  · have hnz : dec16 (get_bc16 s2) ≠ 0 := by
      rw [get_bc16_eq, dec16_eq]
      omega
    simp only [on_block_ld]
    rw [if_pos (by rw [ne_eq]; exact ⟨by decide, hnz⟩)]
    refine ⟨?_, ?_, ?_, ?_, ?_, ?_, ?_⟩
    · simp [set_f, on_5t_write_cycle, on_3t_read_cycle, memWrite, tick,
        get_bc16_eq, get_de16_eq, get_hl16_eq, BlockLd.toNat]
      omega
    · simp [set_f, on_5t_write_cycle, on_3t_read_cycle, memWrite, tick,
        get_bc16_eq, get_de16_eq, get_hl16_eq, BlockLd.toNat, hhl2]
    · simp [set_f, on_5t_write_cycle, on_3t_read_cycle, memWrite, tick,
        get_bc16_eq, get_de16_eq, get_hl16_eq, BlockLd.toNat, hde2]
    · simp [set_f, on_5t_write_cycle, on_3t_read_cycle, memWrite, tick, hb1]
    · simp [set_f, on_5t_write_cycle, on_3t_read_cycle, memWrite, tick, hb1]
    · simp [set_f, on_5t_write_cycle, on_3t_read_cycle, memWrite, tick, hb1]
    · exact hmem _ rfl

/-- Overriding the prefix leaves `next_index_rp` unchanged. -/
theorem with_pfx_next (X : State) (p : Pfx) :
    ({ X with pfx := p } : State).next_index_rp = X.next_index_rp := rfl

/-- Overriding the prefix leaves `bc` unchanged. -/
theorem with_pfx_bc (X : State) (p : Pfx) :
    ({ X with pfx := p } : State).bc = X.bc := rfl

/-- Overriding the prefix leaves `hl` unchanged. -/
theorem with_pfx_hl (X : State) (p : Pfx) :
    ({ X with pfx := p } : State).hl = X.hl := rfl

/-- Overriding the prefix leaves `de` unchanged. -/
theorem with_pfx_de (X : State) (p : Pfx) :
    ({ X with pfx := p } : State).de = X.de := rfl

/-- Overriding the prefix leaves `pc` unchanged. -/
theorem with_pfx_pc (X : State) (p : Pfx) :
    ({ X with pfx := p } : State).pc = X.pc := rfl

/-- Overriding the prefix leaves `memptr` unchanged. -/
theorem with_pfx_memptr (X : State) (p : Pfx) :
    ({ X with pfx := p } : State).memptr = X.memptr := rfl

/-- Overriding the prefix leaves `ticks` unchanged. -/
theorem with_pfx_ticks (X : State) (p : Pfx) :
    ({ X with pfx := p } : State).ticks = X.ticks := rfl

/-- Overriding the prefix leaves the memory unchanged. -/
theorem with_pfx_mem (X : State) (p : Pfx) :
    ({ X with pfx := p } : State).mem = X.mem := rfl

set_option maxHeartbeats 1600000 in
/-- Two steps starting at an LDIR instruction perform one copy iteration:
fetch 0xED, fetch 0xB0, then the block-load handler. -/
theorem ldir_iter (t : State)
    (hpfx : t.pfx = Pfx.none) (hnext : t.next_index_rp = IndexRP.hl)
    (hpc : t.pc < 65536) (hhl : t.hl < 65536) (hde : t.de < 65536)
    (hbc : 0 < t.bc) (hbc16 : t.bc < 65536)
    (hED : t.mem t.pc = 237) (hB0 : t.mem ((t.pc + 1) % 65536) = 176) :
    ∃ u, stepN 2 t = some u ∧
      u.pfx = Pfx.none ∧ u.next_index_rp = IndexRP.hl ∧
      u.bc = t.bc - 1 ∧ u.hl = (t.hl + 1) % 65536 ∧ u.de = (t.de + 1) % 65536 ∧
      u.pc = (if t.bc = 1 then (t.pc + 2) % 65536 else t.pc) ∧
      u.memptr = (if t.bc = 1 then t.memptr else (t.pc + 3) % 65536) ∧
      u.ticks = t.ticks + (if t.bc = 1 then 16 else 21) ∧
      u.mem = fun x => if x = t.de then t.mem t.hl % 256 else t.mem x := by
  have hop1 : memRead t t.pc = 237 := by
    rw [memRead_eq, Nat.mod_eq_of_lt hpc, hED]
  have hs1 := step_ed_fetch t hpfx hop1
  have hop2 : memRead
      { t with index_rp := t.next_index_rp,
               next_index_rp := IndexRP.hl, ticks := t.ticks + 4,
               last_read_addr := t.pc % 65536, pc := (t.pc + 1) % 65536,
               pfx := Pfx.ed }
      ({ t with index_rp := t.next_index_rp,
                next_index_rp := IndexRP.hl, ticks := t.ticks + 4,
                last_read_addr := t.pc % 65536, pc := (t.pc + 1) % 65536,
                pfx := Pfx.ed } : State).pc = 176 := by
    rw [memRead_eq]
    show t.mem ((t.pc + 1) % 65536 % 65536) % 256 = 176
    rw [show (t.pc + 1) % 65536 % 65536 = (t.pc + 1) % 65536 by omega, hB0]
  have hs2 := step_ldir_exec _ rfl hop2
  have hobl := block_ldir_spec
      { t with index_rp := IndexRP.hl,
               next_index_rp := IndexRP.hl, ticks := t.ticks + 8,
               last_read_addr := (t.pc + 1) % 65536 % 65536,
               pc := ((t.pc + 1) % 65536 + 1) % 65536, pfx := Pfx.ed }
      hbc hbc16 hhl hde
  refine ⟨{ on_block_ld BlockLd.ldir
            { t with index_rp := IndexRP.hl,
                     next_index_rp := IndexRP.hl, ticks := t.ticks + 8,
                     last_read_addr := (t.pc + 1) % 65536 % 65536,
                     pc := ((t.pc + 1) % 65536 + 1) % 65536, pfx := Pfx.ed }
            with pfx := Pfx.none }, ?_, rfl, ?_, ?_, ?_, ?_, ?_, ?_, ?_, ?_⟩
  · rw [stepN_two, hs1]
    show step _ = _
    exact hs2
  · rw [with_pfx_next, on_block_ld_next]
  · rw [with_pfx_bc, hobl.1]
  · rw [with_pfx_hl, hobl.2.1]
  · rw [with_pfx_de, hobl.2.2.1]
  · rw [with_pfx_pc, hobl.2.2.2.1]
    by_cases hb1 : t.bc = 1 <;> simp [hb1, sub16_eq] <;> omega
  · rw [with_pfx_memptr, hobl.2.2.2.2.1]
    by_cases hb1 : t.bc = 1 <;> simp [hb1] <;> omega
  · rw [with_pfx_ticks, hobl.2.2.2.2.2.1]
    by_cases hb1 : t.bc = 1 <;> simp [hb1] <;> omega
  · rw [with_pfx_mem, hobl.2.2.2.2.2.2]

/-- Frame of a whole `step`: after any non-aborting step, the pending
index pair is HL unless the fetched byte was the CB prefix or the FD
prefix; the instruction state is `none` unless the fetched byte was the
CB or ED prefix; and `disable_int` is never cleared. -/
theorem step_frame {s t : State} (h : step s = some t) :
    (s.pfx = Pfx.none → memRead s s.pc ≠ 203 → memRead s s.pc ≠ 253 →
      t.next_index_rp = IndexRP.hl) ∧
    (s.pfx ≠ Pfx.none → t.next_index_rp = IndexRP.hl) ∧
    (s.pfx = Pfx.none → memRead s s.pc ≠ 203 → memRead s s.pc ≠ 237 →
      t.pfx = Pfx.none) ∧
    (s.pfx ≠ Pfx.none → t.pfx = Pfx.none) ∧
    (s.disable_int = true → t.disable_int = true) := by
  unfold step on_decode at h
  cases hp : s.pfx <;> simp only [hp] at h
  · obtain ⟨h1, h2, h3⟩ := decode_main_frame h
    exact ⟨fun _ ha hb => h1 ha hb, fun hn => absurd rfl hn,
      fun _ ha hb => h2 ha hb, fun hn => absurd rfl hn, h3⟩
  · obtain ⟨h1, h2, h3⟩ := decode_cb_frame h
    exact ⟨fun hn => Pfx.noConfusion hn, fun _ => h2,
      fun hn => Pfx.noConfusion hn, fun _ => h1, fun hd => h3.trans hd⟩
  · obtain ⟨h1, h2, h3⟩ := decode_ed_frame h
    exact ⟨fun hn => Pfx.noConfusion hn, fun _ => h2,
      fun hn => Pfx.noConfusion hn, fun _ => h1, fun hd => h3.trans hd⟩


set_option maxHeartbeats 1600000 in
/-- Running 2j steps from an LDIR instruction (j at most BC, destination
range disjoint from the two instruction bytes) performs j copy
iterations: BC, HL, DE, PC, MEMPTR, the tick counter and the memory are
as the iteration count dictates. -/
theorem ldir_run (s : State) (K : Nat)
    (hpfx : s.pfx = Pfx.none) (hnext : s.next_index_rp = IndexRP.hl)
    (hpc : s.pc < 65536) (hhl : s.hl < 65536) (hde : s.de < 65536)
    (hbc : s.bc = K) (hK0 : 0 < K) (hK16 : K < 65536)
    (hED : s.mem s.pc = 237) (hB0 : s.mem ((s.pc + 1) % 65536) = 176)
    (hclob : ∀ i, i < K →
      (s.de + i) % 65536 ≠ s.pc ∧ (s.de + i) % 65536 ≠ (s.pc + 1) % 65536) :
    ∀ j, j ≤ K → ∃ u, stepN (2 * j) s = some u ∧
      u.pfx = Pfx.none ∧ u.next_index_rp = IndexRP.hl ∧
      u.bc = K - j ∧ u.hl = (s.hl + j) % 65536 ∧ u.de = (s.de + j) % 65536 ∧
      u.pc = (if j = K then (s.pc + 2) % 65536 else s.pc) ∧
      u.memptr = (if min j (K - 1) = 0 then s.memptr
                  else (s.pc + 3) % 65536) ∧
      u.ticks = s.ticks + 16 * j + 5 * min j (K - 1) ∧
      u.mem = ldirMem s.mem s.hl s.de j := by
  intro j
  induction j with
  | zero =>
    intro _
    refine ⟨s, rfl, hpfx, hnext, ?_, ?_, ?_, ?_, ?_, ?_, rfl⟩
    · omega
    · rw [Nat.add_zero, Nat.mod_eq_of_lt hhl]
    · rw [Nat.add_zero, Nat.mod_eq_of_lt hde]
    · rw [if_neg (by omega)]
    · rw [if_pos (by omega)]
    · omega
  | succ j ih =>
    intro hjK
    obtain ⟨u, hsu, hupfx, hunext, hubc, huhl, hude, hupc, humem, hutk, humm⟩ :=
      ih (by omega)
    have hjltK : j < K := by omega
    have hupc' : u.pc = s.pc := by rw [hupc, if_neg (by omega)]
    have hED' : u.mem u.pc = 237 := by
      rw [hupc', humm, ldirMem_apply_of_ne s.mem s.hl s.de j s.pc
        (fun i hi => (hclob i (by omega)).1), hED]
    have hB0' : u.mem ((u.pc + 1) % 65536) = 176 := by
      rw [hupc', humm, ldirMem_apply_of_ne s.mem s.hl s.de j ((s.pc + 1) % 65536)
        (fun i hi => (hclob i (by omega)).2), hB0]
    obtain ⟨v, hsv, hvpfx, hvnext, hvbc, hvhl, hvde, hvpc, hvmem, hvtk, hvmm⟩ :=
      ldir_iter u hupfx hunext (by rw [hupc']; exact hpc)
        (by rw [huhl]; exact Nat.mod_lt _ (by omega))
        (by rw [hude]; exact Nat.mod_lt _ (by omega))
        (by omega) (by omega) hED' hB0'
    refine ⟨v, ?_, hvpfx, hvnext, ?_, ?_, ?_, ?_, ?_, ?_, ?_⟩
    · rw [show 2 * (j + 1) = 2 * j + 2 by omega, stepN_add, hsu]
      show stepN 2 u = some v
      exact hsv
    · rw [hvbc, hubc]
      omega
    · rw [hvhl, huhl]
      omega
    · rw [hvde, hude]
      omega
    · rw [hvpc, hubc, hupc']
      by_cases hfin : j + 1 = K
      · rw [if_pos (by omega), if_pos hfin]
      · rw [if_neg (by omega), if_neg hfin]
    · rw [hvmem, hubc, hupc', humem]
      by_cases hfin : j + 1 = K
      · rw [if_pos (by omega)]
        by_cases hj0 : j = 0
        · rw [if_pos (by omega), if_pos (by omega)]
        · rw [if_neg (by omega), if_neg (by omega)]
      · rw [if_neg (by omega), if_neg (by omega)]
    · rw [hvtk, hutk, hubc]
      by_cases hfin : j + 1 = K
      · rw [if_pos (by omega)]
        omega
      · rw [if_neg (by omega)]
        omega
    · rw [hvmm, hude, huhl, humm, ldirMem]


/-! Bit-mask distribution kit for the flag computations. -/

/-- AND distributes over OR on the left operand. -/
theorem or_and_right (x y m : Nat) : (x ||| y) &&& m = (x &&& m) ||| (y &&& m) := by
  apply Nat.eq_of_testBit_eq
  intro i
  simp only [Nat.testBit_and, Nat.testBit_or]
  cases hx : x.testBit i <;> cases hy : y.testBit i <;> cases hm : m.testBit i <;> rfl

/-- Masking twice associates onto the masks. -/
theorem and_and_of_and_eq_zero (x c m : Nat) (h : c &&& m = 0) :
    (x &&& c) &&& m = 0 := by
  rw [Nat.and_assoc, h, Nat.and_zero]

/-- A two-way choice whose branches both vanish under the mask. -/
theorem ite_and_zero (c : Prop) [inst : Decidable c] (x y m : Nat)
    (hx : x &&& m = 0) (hy : y &&& m = 0) : (if c then x else y) &&& m = 0 := by
  split
  · exact hx
  · exact hy

/-- Dropping a right OR-piece that vanishes under the mask. -/
theorem or_and_of_right_zero (y x m : Nat) (hx : x &&& m = 0) :
    (y ||| x) &&& m = y &&& m := by
  rw [or_and_right, hx, Nat.or_zero]

/-- An OR of two bytes is a byte. -/
theorem or_lt_256 (x y : Nat) (hx : x < 256) (hy : y < 256) : x ||| y < 256 :=
  Nat.or_lt_two_pow (n := 8) hx hy

/-- The F byte written by `set_f`, reduced modulo 256. -/
theorem get_f_set_f (s : State) (n : Nat) : get_f (set_f s n) = n &&& 255 := by
  show get_low8 (make16 (get_a s) n) = n &&& 255
  unfold get_low8 make16
  rw [or_and_right, show get_a s <<< 8 &&& 255 = 0 by
        rw [Nat.shiftLeft_eq, and_255]; omega,
      Nat.zero_or]

/-- `set_f` with a byte value does not change A. -/
theorem get_a_set_f (s : State) (n : Nat) (hn : n < 256) :
    get_a (set_f s n) = get_a s := by
  show get_high8 (make16 (get_a s) n) = get_a s
  rw [make16_eq _ _ hn]
  unfold get_high8
  rw [Nat.shiftRight_eq_div_pow, and_255]
  have hga : get_a s < 256 := by rw [get_a_eq]; omega
  omega

/-- The A byte written by `set_a`, reduced modulo 256. -/
theorem get_a_set_a (s : State) (n : Nat) : get_a (set_a s n) = n &&& 255 := by
  show get_high8 (make16 n (get_f s)) = n &&& 255
  have hgf : get_f s < 256 := by rw [get_f_eq]; omega
  rw [make16_eq _ _ hgf]
  unfold get_high8
  rw [Nat.shiftRight_eq_div_pow, and_255, and_255]
  omega

/-- `cf_ari` vanishes under any mask without bit 0. -/
theorem cf_ari_and (c : Bool) (m : Nat) (h : 1 &&& m = 0) : cf_ari c &&& m = 0 := by
  unfold cf_ari cf_mask
  exact ite_and_zero _ _ _ _ h (Nat.zero_and m)

/-- `zf_ari` vanishes under any mask without bit 6. -/
theorem zf_ari_and (x m : Nat) (h : 64 &&& m = 0) : zf_ari x &&& m = 0 := by
  unfold zf_ari zf_mask
  exact ite_and_zero _ _ _ _ h (Nat.zero_and m)

/-- `hf_ari` vanishes under any mask without bit 4. -/
theorem hf_ari_and (r a b m : Nat) (h : (16 : Nat) &&& m = 0) :
    hf_ari r a b &&& m = 0 := by
  unfold hf_ari hf_mask
  exact and_and_of_and_eq_zero _ _ _ h

/-- `pf_ari` vanishes under any mask without bit 2. -/
theorem pf_ari_and (r a b m : Nat) (h : (4 : Nat) &&& m = 0) :
    pf_ari r a b &&& m = 0 := by
  unfold pf_ari pf_mask
  exact and_and_of_and_eq_zero _ _ _ h

/-- `pf_log` vanishes under any mask without bit 2. -/
theorem pf_log_and (x m : Nat) (h : (4 : Nat) &&& m = 0) : pf_log x &&& m = 0 := by
  unfold pf_log pf_mask
  exact ite_and_zero _ _ _ _ h (Nat.zero_and m)

/-- `cf_ari` is a byte. -/
theorem cf_ari_lt (c : Bool) : cf_ari c < 256 := by
  unfold cf_ari cf_mask
  split <;> decide

/-- `zf_ari` is a byte. -/
theorem zf_ari_lt (x : Nat) : zf_ari x < 256 := by
  unfold zf_ari zf_mask
  split <;> decide

/-- `hf_ari` is a byte. -/
theorem hf_ari_lt (r a b : Nat) : hf_ari r a b < 256 := by
  unfold hf_ari hf_mask
  exact lt_of_le_of_lt Nat.and_le_right (by decide)

/-- `pf_ari` is a byte. -/
theorem pf_ari_lt (r a b : Nat) : pf_ari r a b < 256 := by
  unfold pf_ari pf_mask
  exact lt_of_le_of_lt Nat.and_le_right (by decide)

/-- `pf_log` is a byte. -/
theorem pf_log_lt (x : Nat) : pf_log x < 256 := by
  unfold pf_log pf_mask
  split <;> decide

/-- Masking with a byte mask gives a byte. -/
theorem and_lt_256 (x m : Nat) (hm : m < 256) : x &&& m < 256 :=
  lt_of_le_of_lt Nat.and_le_right hm

/-- Reassociating a byte truncation with a further mask. -/
theorem and255_and (x m : Nat) : (x &&& 255) &&& m = x &&& (255 &&& m) :=
  Nat.and_assoc x 255 m

/-- A mask absorbed by a wider mask. -/
theorem mask_swallow (x c m : Nat) (h : c &&& m = m) :
    (x &&& c) &&& m = x &&& m := by
  rw [Nat.and_assoc, h]

set_option maxHeartbeats 1600000 in
/-- C6: for every 8-bit ALU operation that executes (ADC and SBC are
aborting stubs), the Y and X bits of the resulting F are bits 5 and 3 of
the result byte, except for CP, which takes them from the operand,
leaves A unchanged and sets N. -/
theorem C6_alu_yx (k : Alu) (n : Nat) (s : State) (t : State)
    (h : do_alu k n s = some t) :
    (k ≠ Alu.cp → get_f t &&& (yf_mask ||| xf_mask) =
      get_a t &&& (yf_mask ||| xf_mask)) ∧
    (k = Alu.cp → get_f t &&& (yf_mask ||| xf_mask) =
      n &&& (yf_mask ||| xf_mask) ∧
      get_a t = get_a s ∧ get_f t &&& nf_mask = nf_mask) := by
  cases k
  case adc => exact Option.noConfusion h
  case sbc => exact Option.noConfusion h
  case add =>
    simp only [do_alu] at h
    injection h with h'
    subst h'
    refine ⟨fun _ => ?_, fun hk => Alu.noConfusion hk⟩
    have hF : (add8 (get_a s) n &&& (sf_mask ||| yf_mask ||| xf_mask) |||
        zf_ari (add8 (get_a s) n) |||
        hf_ari (add8 (get_a s) n) (get_a s) n |||
        pf_ari (get_a s + n) (get_a s) n |||
        cf_ari (decide (add8 (get_a s) n < get_a s))) < 256 :=
      or_lt_256 _ _ (or_lt_256 _ _ (or_lt_256 _ _ (or_lt_256 _ _
        (and_lt_256 _ _ (by decide)) (zf_ari_lt _)) (hf_ari_lt _ _ _))
        (pf_ari_lt _ _ _)) (cf_ari_lt _)
    rw [get_f_set_f, get_a_set_f _ _ hF, get_a_set_a, and255_and, and255_and,
        show (255 : Nat) &&& (yf_mask ||| xf_mask) = 40 from rfl]
    rw [or_and_of_right_zero _ _ _ (cf_ari_and _ _ (by decide)),
        or_and_of_right_zero _ _ _ (pf_ari_and _ _ _ _ (by decide)),
        or_and_of_right_zero _ _ _ (hf_ari_and _ _ _ _ (by decide)),
        or_and_of_right_zero _ _ _ (zf_ari_and _ _ (by decide))]
    exact mask_swallow _ _ _ (by decide)
  case sub =>
    simp only [do_alu] at h
    injection h with h'
    subst h'
    refine ⟨fun _ => ?_, fun hk => Alu.noConfusion hk⟩
    have hF : (sub8 (get_a s) n &&& (sf_mask ||| yf_mask ||| xf_mask) |||
        zf_ari (sub8 (get_a s) n) |||
        hf_ari (sub8 (get_a s) n) (get_a s) n |||
        pf_ari (get_a s + 65536 - n) (get_a s) n |||
        cf_ari (decide (sub8 (get_a s) n > get_a s)) ||| nf_mask) < 256 :=
      or_lt_256 _ _ (or_lt_256 _ _ (or_lt_256 _ _ (or_lt_256 _ _ (or_lt_256 _ _
        (and_lt_256 _ _ (by decide)) (zf_ari_lt _)) (hf_ari_lt _ _ _))
        (pf_ari_lt _ _ _)) (cf_ari_lt _)) (by decide)
    rw [get_f_set_f, get_a_set_f _ _ hF, get_a_set_a, and255_and, and255_and,
        show (255 : Nat) &&& (yf_mask ||| xf_mask) = 40 from rfl]
    rw [or_and_of_right_zero _ _ _ (by decide : nf_mask &&& 40 = 0),
        or_and_of_right_zero _ _ _ (cf_ari_and _ _ (by decide)),
        or_and_of_right_zero _ _ _ (pf_ari_and _ _ _ _ (by decide)),
        or_and_of_right_zero _ _ _ (hf_ari_and _ _ _ _ (by decide)),
        or_and_of_right_zero _ _ _ (zf_ari_and _ _ (by decide))]
    exact mask_swallow _ _ _ (by decide)
  case and_a =>
    simp only [do_alu] at h
    injection h with h'
    subst h'
    refine ⟨fun _ => ?_, fun hk => Alu.noConfusion hk⟩
    have hF : ((get_a s &&& n) &&& (sf_mask ||| yf_mask ||| xf_mask) |||
        zf_ari (get_a s &&& n) ||| pf_log (get_a s &&& n) ||| hf_mask) < 256 :=
      or_lt_256 _ _ (or_lt_256 _ _ (or_lt_256 _ _
        (and_lt_256 _ _ (by decide)) (zf_ari_lt _)) (pf_log_lt _)) (by decide)
    rw [get_f_set_f, get_a_set_f _ _ hF, get_a_set_a, and255_and, and255_and,
        show (255 : Nat) &&& (yf_mask ||| xf_mask) = 40 from rfl]
    rw [or_and_of_right_zero _ _ _ (by decide : hf_mask &&& 40 = 0),
        or_and_of_right_zero _ _ _ (pf_log_and _ _ (by decide)),
        or_and_of_right_zero _ _ _ (zf_ari_and _ _ (by decide))]
    exact mask_swallow _ _ _ (by decide)
  case xor_a =>
    simp only [do_alu] at h
    injection h with h'
    subst h'
    refine ⟨fun _ => ?_, fun hk => Alu.noConfusion hk⟩
    have hF : ((get_a s ^^^ n) &&& (sf_mask ||| yf_mask ||| xf_mask) |||
        zf_ari (get_a s ^^^ n) ||| pf_log (get_a s ^^^ n)) < 256 :=
      or_lt_256 _ _ (or_lt_256 _ _
        (and_lt_256 _ _ (by decide)) (zf_ari_lt _)) (pf_log_lt _)
    rw [get_f_set_f, get_a_set_f _ _ hF, get_a_set_a, and255_and, and255_and,
        show (255 : Nat) &&& (yf_mask ||| xf_mask) = 40 from rfl]
    rw [or_and_of_right_zero _ _ _ (pf_log_and _ _ (by decide)),
        or_and_of_right_zero _ _ _ (zf_ari_and _ _ (by decide))]
    exact mask_swallow _ _ _ (by decide)
  case or_a =>
    simp only [do_alu] at h
    injection h with h'
    subst h'
    refine ⟨fun _ => ?_, fun hk => Alu.noConfusion hk⟩
    have hF : ((get_a s ||| n) &&& (sf_mask ||| yf_mask ||| xf_mask) |||
        zf_ari (get_a s ||| n) ||| pf_log (get_a s ||| n)) < 256 :=
      or_lt_256 _ _ (or_lt_256 _ _
        (and_lt_256 _ _ (by decide)) (zf_ari_lt _)) (pf_log_lt _)
    rw [get_f_set_f, get_a_set_f _ _ hF, get_a_set_a, and255_and, and255_and,
        show (255 : Nat) &&& (yf_mask ||| xf_mask) = 40 from rfl]
    rw [or_and_of_right_zero _ _ _ (pf_log_and _ _ (by decide)),
        or_and_of_right_zero _ _ _ (zf_ari_and _ _ (by decide))]
    exact mask_swallow _ _ _ (by decide)
  case cp =>
    simp only [do_alu] at h
    injection h with h'
    subst h'
    refine ⟨fun hk => absurd rfl hk, fun _ => ?_⟩
    have hF : (sub8 (get_a s) n &&& sf_mask ||| zf_ari (sub8 (get_a s) n) |||
        n &&& (yf_mask ||| xf_mask) |||
        hf_ari (sub8 (get_a s) n) (get_a s) n |||
        pf_ari (get_a s + 65536 - n) (get_a s) n |||
        cf_ari (decide (sub8 (get_a s) n > get_a s)) ||| nf_mask) < 256 :=
      or_lt_256 _ _ (or_lt_256 _ _ (or_lt_256 _ _ (or_lt_256 _ _ (or_lt_256 _ _
        (or_lt_256 _ _ (and_lt_256 _ _ (by decide)) (zf_ari_lt _))
        (and_lt_256 _ _ (by decide))) (hf_ari_lt _ _ _))
        (pf_ari_lt _ _ _)) (cf_ari_lt _)) (by decide)
    refine ⟨?_, get_a_set_f _ _ hF, ?_⟩
    · rw [get_f_set_f, and255_and,
          show (255 : Nat) &&& (yf_mask ||| xf_mask) = 40 from rfl,
          show yf_mask ||| xf_mask = (40 : Nat) from rfl]
      rw [or_and_of_right_zero _ _ _ (by decide : nf_mask &&& 40 = 0),
          or_and_of_right_zero _ _ _ (cf_ari_and _ _ (by decide)),
          or_and_of_right_zero _ _ _ (pf_ari_and _ _ _ _ (by decide)),
          or_and_of_right_zero _ _ _ (hf_ari_and _ _ _ _ (by decide)),
          or_and_right,
          or_and_of_right_zero _ _ _ (zf_ari_and _ _ (by decide)),
          and_and_of_and_eq_zero _ _ _ (by decide : sf_mask &&& 40 = 0),
          Nat.zero_or]
      exact mask_swallow _ _ _ (by decide)
    · rw [get_f_set_f, and255_and, show (255 : Nat) &&& nf_mask = 2 from rfl,
          show nf_mask = (2 : Nat) from rfl]
      rw [or_and_right,
          or_and_of_right_zero _ _ _ (cf_ari_and _ _ (by decide)),
          or_and_of_right_zero _ _ _ (pf_ari_and _ _ _ _ (by decide)),
          or_and_of_right_zero _ _ _ (hf_ari_and _ _ _ _ (by decide)),
          or_and_of_right_zero _ _ _ (and_and_of_and_eq_zero _ _ _
            (by decide : (yf_mask ||| xf_mask) &&& 2 = 0)),
          or_and_of_right_zero _ _ _ (zf_ari_and _ _ (by decide)),
          and_and_of_and_eq_zero _ _ _ (by decide : sf_mask &&& 2 = 0),
          Nat.zero_or, show (2 : Nat) &&& 2 = 2 from rfl]

/-- `on_ccf` in conditional normal form: H is the old C, the new C is the
complemented old C. -/
theorem on_ccf_eq (s : State) :
    on_ccf s = set_f s ((get_f s &&& (sf_mask ||| zf_mask ||| pf_mask)) |||
      (get_a s &&& (yf_mask ||| xf_mask)) |||
      (if get_f s &&& cf_mask = 0 then 0 else hf_mask) |||
      (if get_f s &&& cf_mask = 0 then cf_mask else 0)) := by
  simp only [on_ccf]
  by_cases hc : get_f s &&& cf_mask = 0
  · have hcb : ((get_f s &&& cf_mask) != 0) = false := by rw [hc]; rfl
    rw [hcb, if_pos hc, if_pos hc]
    simp [cf_ari]
  · have hcb : ((get_f s &&& cf_mask) != 0) = true := bne_iff_ne.mpr hc
    rw [hcb, if_neg hc, if_neg hc]
    simp [cf_ari]

set_option maxHeartbeats 1600000 in
/-- C8: SCF sets C, clears H and N, copies Y and X from A and preserves
S, Z and P/V; CCF complements C, sets H to the old C, clears N, copies
Y and X from A and preserves S, Z and P/V; neither changes A. -/
theorem C8_scf_ccf (s : State) :
    (get_f (on_scf s) &&& cf_mask = cf_mask) ∧
    (get_f (on_scf s) &&& hf_mask = 0) ∧
    (get_f (on_scf s) &&& nf_mask = 0) ∧
    (get_f (on_scf s) &&& (yf_mask ||| xf_mask) =
      get_a s &&& (yf_mask ||| xf_mask)) ∧
    (get_f (on_scf s) &&& (sf_mask ||| zf_mask ||| pf_mask) =
      get_f s &&& (sf_mask ||| zf_mask ||| pf_mask)) ∧
    get_a (on_scf s) = get_a s ∧
    (get_f (on_ccf s) &&& cf_mask =
      (if get_f s &&& cf_mask = 0 then cf_mask else 0)) ∧
    (get_f (on_ccf s) &&& hf_mask =
      (if get_f s &&& cf_mask = 0 then 0 else hf_mask)) ∧
    (get_f (on_ccf s) &&& nf_mask = 0) ∧
    (get_f (on_ccf s) &&& (yf_mask ||| xf_mask) =
      get_a s &&& (yf_mask ||| xf_mask)) ∧
    (get_f (on_ccf s) &&& (sf_mask ||| zf_mask ||| pf_mask) =
      get_f s &&& (sf_mask ||| zf_mask ||| pf_mask)) ∧
    get_a (on_ccf s) = get_a s := by
  have hFs : (get_f s &&& (sf_mask ||| zf_mask ||| pf_mask) |||
      get_a s &&& (yf_mask ||| xf_mask) ||| cf_mask) < 256 :=
    or_lt_256 _ _ (or_lt_256 _ _ (and_lt_256 _ _ (by decide))
      (and_lt_256 _ _ (by decide))) (by decide)
  have hFc : (get_f s &&& (sf_mask ||| zf_mask ||| pf_mask) |||
      get_a s &&& (yf_mask ||| xf_mask) |||
      (if get_f s &&& cf_mask = 0 then 0 else hf_mask) |||
      (if get_f s &&& cf_mask = 0 then cf_mask else 0)) < 256 :=
    or_lt_256 _ _ (or_lt_256 _ _ (or_lt_256 _ _ (and_lt_256 _ _ (by decide))
      (and_lt_256 _ _ (by decide))) (by split <;> decide)) (by split <;> decide)
  simp only [on_scf, on_ccf_eq]
  refine ⟨?_, ?_, ?_, ?_, ?_, get_a_set_f _ _ hFs,
          ?_, ?_, ?_, ?_, ?_, get_a_set_f _ _ hFc⟩
  · rw [get_f_set_f, and255_and, show (255 : Nat) &&& cf_mask = 1 from rfl,
        show cf_mask = (1 : Nat) from rfl]
    rw [or_and_right,
        or_and_of_right_zero _ _ _ (and_and_of_and_eq_zero _ _ _
          (by decide : (yf_mask ||| xf_mask) &&& 1 = 0)),
        and_and_of_and_eq_zero _ _ _
          (by decide : (sf_mask ||| zf_mask ||| pf_mask) &&& 1 = 0),
        Nat.zero_or, show (1 : Nat) &&& 1 = 1 from rfl]
  · rw [get_f_set_f, and255_and, show (255 : Nat) &&& hf_mask = 16 from rfl]
    rw [or_and_of_right_zero _ _ _ (by decide : cf_mask &&& 16 = 0),
        or_and_of_right_zero _ _ _ (and_and_of_and_eq_zero _ _ _
          (by decide : (yf_mask ||| xf_mask) &&& 16 = 0)),
        and_and_of_and_eq_zero _ _ _
          (by decide : (sf_mask ||| zf_mask ||| pf_mask) &&& 16 = 0)]
  · rw [get_f_set_f, and255_and, show (255 : Nat) &&& nf_mask = 2 from rfl]
    rw [or_and_of_right_zero _ _ _ (by decide : cf_mask &&& 2 = 0),
        or_and_of_right_zero _ _ _ (and_and_of_and_eq_zero _ _ _
          (by decide : (yf_mask ||| xf_mask) &&& 2 = 0)),
        and_and_of_and_eq_zero _ _ _
          (by decide : (sf_mask ||| zf_mask ||| pf_mask) &&& 2 = 0)]
  · rw [get_f_set_f, and255_and,
        show (255 : Nat) &&& (yf_mask ||| xf_mask) = 40 from rfl,
        show yf_mask ||| xf_mask = (40 : Nat) from rfl]
    rw [or_and_of_right_zero _ _ _ (by decide : cf_mask &&& 40 = 0),
        or_and_right,
        and_and_of_and_eq_zero _ _ _
          (by decide : (sf_mask ||| zf_mask ||| pf_mask) &&& 40 = 0),
        Nat.zero_or]
    exact mask_swallow _ _ _ (by decide)
  · rw [get_f_set_f, and255_and,
        show (255 : Nat) &&& (sf_mask ||| zf_mask ||| pf_mask) = 196 from rfl,
        show sf_mask ||| zf_mask ||| pf_mask = (196 : Nat) from rfl]
    rw [or_and_of_right_zero _ _ _ (by decide : cf_mask &&& 196 = 0),
        or_and_of_right_zero _ _ _ (and_and_of_and_eq_zero _ _ _
          (by decide : (yf_mask ||| xf_mask) &&& 196 = 0))]
    exact mask_swallow _ _ _ (by decide)
  · rw [get_f_set_f, and255_and, show (255 : Nat) &&& cf_mask = 1 from rfl,
        show cf_mask = (1 : Nat) from rfl]
    rw [or_and_right,
        or_and_of_right_zero _ _ _ (ite_and_zero _ _ _ _
          (by decide : (0 : Nat) &&& 1 = 0) (by decide : hf_mask &&& 1 = 0)),
        or_and_of_right_zero _ _ _ (and_and_of_and_eq_zero _ _ _
          (by decide : (yf_mask ||| xf_mask) &&& 1 = 0)),
        and_and_of_and_eq_zero _ _ _
          (by decide : (sf_mask ||| zf_mask ||| pf_mask) &&& 1 = 0),
        Nat.zero_or]
    by_cases hc : get_f s &&& 1 = 0
    · rw [if_pos hc, show (1 : Nat) &&& 1 = 1 from rfl]
    · rw [if_neg hc, Nat.zero_and]
  · rw [get_f_set_f, and255_and, show (255 : Nat) &&& hf_mask = 16 from rfl]
    rw [or_and_of_right_zero _ _ _ (ite_and_zero _ _ _ _
          (by decide : cf_mask &&& 16 = 0) (by decide : (0 : Nat) &&& 16 = 0)),
        or_and_right,
        or_and_of_right_zero _ _ _ (and_and_of_and_eq_zero _ _ _
          (by decide : (yf_mask ||| xf_mask) &&& 16 = 0)),
        and_and_of_and_eq_zero _ _ _
          (by decide : (sf_mask ||| zf_mask ||| pf_mask) &&& 16 = 0),
        Nat.zero_or]
    by_cases hc : get_f s &&& cf_mask = 0
    · rw [if_pos hc, Nat.zero_and]
    · rw [if_neg hc, show hf_mask &&& 16 = hf_mask from rfl]
  · rw [get_f_set_f, and255_and, show (255 : Nat) &&& nf_mask = 2 from rfl]
    rw [or_and_of_right_zero _ _ _ (ite_and_zero _ _ _ _
          (by decide : cf_mask &&& 2 = 0) (by decide : (0 : Nat) &&& 2 = 0)),
        or_and_of_right_zero _ _ _ (ite_and_zero _ _ _ _
          (by decide : (0 : Nat) &&& 2 = 0) (by decide : hf_mask &&& 2 = 0)),
        or_and_of_right_zero _ _ _ (and_and_of_and_eq_zero _ _ _
          (by decide : (yf_mask ||| xf_mask) &&& 2 = 0)),
        and_and_of_and_eq_zero _ _ _
          (by decide : (sf_mask ||| zf_mask ||| pf_mask) &&& 2 = 0)]
  · rw [get_f_set_f, and255_and,
        show (255 : Nat) &&& (yf_mask ||| xf_mask) = 40 from rfl,
        show yf_mask ||| xf_mask = (40 : Nat) from rfl]
    rw [or_and_of_right_zero _ _ _ (ite_and_zero _ _ _ _
          (by decide : cf_mask &&& 40 = 0) (by decide : (0 : Nat) &&& 40 = 0)),
        or_and_of_right_zero _ _ _ (ite_and_zero _ _ _ _
          (by decide : (0 : Nat) &&& 40 = 0) (by decide : hf_mask &&& 40 = 0)),
        or_and_right,
        and_and_of_and_eq_zero _ _ _
          (by decide : (sf_mask ||| zf_mask ||| pf_mask) &&& 40 = 0),
        Nat.zero_or]
    exact mask_swallow _ _ _ (by decide)
  · rw [get_f_set_f, and255_and,
        show (255 : Nat) &&& (sf_mask ||| zf_mask ||| pf_mask) = 196 from rfl,
        show sf_mask ||| zf_mask ||| pf_mask = (196 : Nat) from rfl]
    rw [or_and_of_right_zero _ _ _ (ite_and_zero _ _ _ _
          (by decide : cf_mask &&& 196 = 0) (by decide : (0 : Nat) &&& 196 = 0)),
        or_and_of_right_zero _ _ _ (ite_and_zero _ _ _ _
          (by decide : (0 : Nat) &&& 196 = 0) (by decide : hf_mask &&& 196 = 0)),
        or_and_of_right_zero _ _ _ (and_and_of_and_eq_zero _ _ _
          (by decide : (yf_mask ||| xf_mask) &&& 196 = 0))]
    exact mask_swallow _ _ _ (by decide)

set_option maxRecDepth 8192 in
/-- Byte-bounded table fact: AND with 128 tests the sign bit. -/
theorem and128_byte : ∀ d, d < 256 → d &&& 128 = if d < 128 then 0 else 128 := by
  decide

set_option maxRecDepth 8192 in
/-- Byte-bounded table fact: XOR with 255 complements a byte. -/
theorem xor255_byte : ∀ d, d < 256 → d ^^^ 255 = 255 - d := by
  decide

/-- The source's displacement target is the spec's effective address:
index base plus sign-extended displacement, modulo 2^16. -/
theorem get_disp_target_eq (base d : Nat) (hd : d < 256) :
    get_disp_target base d = (effAddr base d).toNat := by
  unfold get_disp_target effAddr sdisp get_sign8 neg8
  by_cases hs : d < 128
  · rw [and128_byte d hd, if_pos hs]
    simp only [bne_self_eq_false, Bool.false_eq_true, if_false, if_pos hs,
      add16_eq]
    omega
  · rw [and128_byte d hd, if_neg hs]
    have h128 : ((128 : Nat) != 0) = true := by decide
    simp only [h128, if_true, if_neg hs, xor255_byte d hd, sub16_eq, and_255]
    have h1 : (255 - d + 1) % 256 = 256 - d := by omega
    rw [h1]
    omega

set_option maxHeartbeats 1600000 in
/-- C9: an indexed operand access latches the effective address (index
register plus sign-extended displacement, mod 2^16) into MEMPTR, both
for reads and writes; the plain (HL) access leaves MEMPTR unchanged. -/
theorem C9_memptr (s : State) (d n : Nat) (long : Bool) (hd : d < 256) :
    (s.index_rp ≠ IndexRP.hl →
      (read_at_disp s d long).2.memptr =
        (effAddr (on_get_index_rp s) d).toNat ∧
      (write_at_disp s d n).memptr =
        (effAddr (on_get_index_rp s) d).toNat) ∧
    (s.index_rp = IndexRP.hl →
      (read_at_disp s d long).2.memptr = s.memptr ∧
      (write_at_disp s d n).memptr = s.memptr) := by
  constructor
  · intro hne
    constructor
    · simp only [read_at_disp, if_pos hne]
      cases long <;>
        simp [on_4t_read_cycle, on_3t_read_cycle, get_disp_target_eq _ _ hd]
    · simp only [write_at_disp, if_pos hne]
      simp [on_3t_write_cycle, memWrite, tick, get_disp_target_eq _ _ hd]
  · intro heq
    have hne : ¬s.index_rp ≠ IndexRP.hl := fun hc => hc heq
    constructor
    · simp only [read_at_disp, if_neg hne]
      cases long <;> simp [on_4t_read_cycle, on_3t_read_cycle]
    · simp only [write_at_disp, if_neg hne]
      simp [on_3t_write_cycle, memWrite, tick]

set_option maxHeartbeats 1600000 in
/-- C10: a push writes the high byte at SP-1 and the low byte at SP-2
(two always-distinct addresses) and decrements SP by 2 mod 2^16; a pop
reads the low byte at SP and the high byte at SP+1 and increments SP by
2 mod 2^16; popping right after pushing returns the pushed word and
restores SP. -/
theorem C10_push_pop (s : State) (nn : Nat) (hnn : nn < 65536)
    (hsp : s.sp < 65536) :
    (on_push nn s).sp = (s.sp + 65534) % 65536 ∧
    (on_push nn s).mem ((s.sp + 65535) % 65536) = get_high8 nn ∧
    (on_push nn s).mem ((s.sp + 65534) % 65536) = get_low8 nn ∧
    (s.sp + 65535) % 65536 ≠ (s.sp + 65534) % 65536 ∧
    (on_pop (on_push nn s)).1 = nn ∧
    (on_pop (on_push nn s)).2.sp = s.sp := by
  have hhi : get_high8 nn = nn / 256 % 256 := by
    unfold get_high8
    rw [Nat.shiftRight_eq_div_pow, and_255]
  have hlo : get_low8 nn = nn % 256 := by
    unfold get_low8
    rw [and_255]
  simp only [on_push, on_pop, on_3t_write_cycle, on_3t_read_cycle, memWrite,
    memRead_eq, tick, dec16_eq, inc16_eq, and_65535, and_255, hhi, hlo,
    if_true]
  refine ⟨by omega, ?_, ?_, by omega, ?_, by omega⟩
  · rw [if_neg (by omega), if_pos (by omega)]
    omega
  · rw [if_pos (by omega)]
    omega
  · rw [if_neg (by omega), if_pos (by omega)]
    rw [make16_eq _ _ (by omega)]
    omega

set_option maxHeartbeats 1600000 in
/-- C5 (amended): BIT b,r preserves C, sets H, clears N; Z and P/V are
set exactly when the tested bit is clear, S is the tested bit masked to
bit 7; the Y and X flags come from the high byte of MEMPTR whenever the
index pair is not HL or the operand is the memory operand (HL)/(IX+d)/
(IY+d), and otherwise from the tested byte; A and the memory are
unchanged. -/
theorem C5_bit (b : Nat) (r : Reg) (d : Nat) (s : State) :
    (get_f (on_bit b r d s) &&& cf_mask =
      get_f ((on_get_r s r d true).2) &&& cf_mask) ∧
    (get_f (on_bit b r d s) &&& hf_mask = hf_mask) ∧
    (get_f (on_bit b r d s) &&& nf_mask = 0) ∧
    (get_f (on_bit b r d s) &&& (zf_mask ||| pf_mask) =
      (if (on_get_r s r d true).1 &&& (1 <<< b) = 0 then zf_mask ||| pf_mask
       else 0)) ∧
    (get_f (on_bit b r d s) &&& sf_mask =
      (if (on_get_r s r d true).1 &&& (1 <<< b) = 0 then 0
       else ((on_get_r s r d true).1 &&& (1 <<< b)) &&& sf_mask)) ∧
    (get_f (on_bit b r d s) &&& (yf_mask ||| xf_mask) =
      (if (on_get_r s r d true).2.index_rp ≠ IndexRP.hl ∨ r = Reg.at_hl
       then get_high8 ((on_get_r s r d true).2.memptr)
       else (on_get_r s r d true).1) &&& (yf_mask ||| xf_mask)) ∧
    get_a (on_bit b r d s) = get_a ((on_get_r s r d true).2) ∧
    (on_bit b r d s).mem = ((on_get_r s r d true).2).mem := by
  have hF : ((get_f ((on_get_r s r d true).2) &&& cf_mask) ||| hf_mask |||
      (if (on_get_r s r d true).1 &&& (1 <<< b) ≠ 0 then
        ((on_get_r s r d true).1 &&& (1 <<< b)) &&& sf_mask
       else zf_mask ||| pf_mask) |||
      ((if (on_get_r s r d true).2.index_rp ≠ IndexRP.hl ∨ r = Reg.at_hl
        then get_high8 ((on_get_r s r d true).2.memptr)
        else (on_get_r s r d true).1) &&& (xf_mask ||| yf_mask))) < 256 :=
    or_lt_256 _ _ (or_lt_256 _ _ (or_lt_256 _ _
      (and_lt_256 _ _ (by decide)) (by decide))
      (by split
          · exact and_lt_256 _ _ (by decide)
          · decide))
      (and_lt_256 _ _ (by decide))
  simp only [on_bit]
  refine ⟨?_, ?_, ?_, ?_, ?_, ?_, get_a_set_f _ _ hF, rfl⟩
  · rw [get_f_set_f, and255_and, show (255 : Nat) &&& cf_mask = 1 from rfl,
        show cf_mask = (1 : Nat) from rfl]
    rw [or_and_of_right_zero _ _ _ (and_and_of_and_eq_zero _ _ _
          (by decide : (xf_mask ||| yf_mask) &&& 1 = 0)),
        or_and_of_right_zero _ _ _ (ite_and_zero _ _ _ _
          (and_and_of_and_eq_zero _ _ _ (by decide : sf_mask &&& 1 = 0))
          (by decide : (zf_mask ||| pf_mask) &&& 1 = 0)),
        or_and_of_right_zero _ _ _ (by decide : hf_mask &&& 1 = 0)]
    exact mask_swallow _ _ _ (by decide)
  · rw [get_f_set_f, and255_and, show (255 : Nat) &&& hf_mask = 16 from rfl]
    rw [or_and_of_right_zero _ _ _ (and_and_of_and_eq_zero _ _ _
          (by decide : (xf_mask ||| yf_mask) &&& 16 = 0)),
        or_and_of_right_zero _ _ _ (ite_and_zero _ _ _ _
          (and_and_of_and_eq_zero _ _ _ (by decide : sf_mask &&& 16 = 0))
          (by decide : (zf_mask ||| pf_mask) &&& 16 = 0)),
        or_and_right,
        and_and_of_and_eq_zero _ _ _ (by decide : cf_mask &&& 16 = 0),
        Nat.zero_or, show hf_mask &&& 16 = (16 : Nat) from rfl,
        show hf_mask = (16 : Nat) from rfl]
  · rw [get_f_set_f, and255_and, show (255 : Nat) &&& nf_mask = 2 from rfl]
    rw [or_and_of_right_zero _ _ _ (and_and_of_and_eq_zero _ _ _
          (by decide : (xf_mask ||| yf_mask) &&& 2 = 0)),
        or_and_of_right_zero _ _ _ (ite_and_zero _ _ _ _
          (and_and_of_and_eq_zero _ _ _ (by decide : sf_mask &&& 2 = 0))
          (by decide : (zf_mask ||| pf_mask) &&& 2 = 0)),
        or_and_of_right_zero _ _ _ (by decide : hf_mask &&& 2 = 0),
        and_and_of_and_eq_zero _ _ _ (by decide : cf_mask &&& 2 = 0)]
  · rw [get_f_set_f, and255_and,
        show (255 : Nat) &&& (zf_mask ||| pf_mask) = 68 from rfl,
        show zf_mask ||| pf_mask = (68 : Nat) from rfl]
    rw [or_and_of_right_zero _ _ _ (and_and_of_and_eq_zero _ _ _
          (by decide : (xf_mask ||| yf_mask) &&& 68 = 0)),
        or_and_right,
        or_and_of_right_zero _ _ _ (by decide : hf_mask &&& 68 = 0),
        and_and_of_and_eq_zero _ _ _ (by decide : cf_mask &&& 68 = 0),
        Nat.zero_or]
    by_cases hm : (on_get_r s r d true).1 &&& (1 <<< b) = 0
    · rw [if_neg (not_not_intro hm), if_pos hm,
          show (68 : Nat) &&& 68 = 68 from rfl]
    · rw [if_pos hm, if_neg hm,
          and_and_of_and_eq_zero _ _ _ (by decide : sf_mask &&& 68 = 0)]
  · rw [get_f_set_f, and255_and,
        show (255 : Nat) &&& sf_mask = 128 from rfl,
        show sf_mask = (128 : Nat) from rfl]
    rw [or_and_of_right_zero _ _ _ (and_and_of_and_eq_zero _ _ _
          (by decide : (xf_mask ||| yf_mask) &&& 128 = 0)),
        or_and_right,
        or_and_of_right_zero _ _ _ (by decide : hf_mask &&& 128 = 0),
        and_and_of_and_eq_zero _ _ _ (by decide : cf_mask &&& 128 = 0),
        Nat.zero_or]
    by_cases hm : (on_get_r s r d true).1 &&& (1 <<< b) = 0
    · rw [if_neg (not_not_intro hm), if_pos hm,
          (by decide : (zf_mask ||| pf_mask) &&& 128 = 0)]
    · rw [if_pos hm, if_neg hm]
      exact mask_swallow _ _ _ (by decide)
  · rw [get_f_set_f, and255_and,
        show (255 : Nat) &&& (yf_mask ||| xf_mask) = 40 from rfl,
        show yf_mask ||| xf_mask = (40 : Nat) from rfl,
        show xf_mask ||| yf_mask = (40 : Nat) from rfl]
    rw [or_and_right,
        or_and_of_right_zero _ _ _ (ite_and_zero _ _ _ _
          (and_and_of_and_eq_zero _ _ _ (by decide : sf_mask &&& 40 = 0))
          (by decide : (zf_mask ||| pf_mask) &&& 40 = 0)),
        or_and_of_right_zero _ _ _ (by decide : hf_mask &&& 40 = 0),
        and_and_of_and_eq_zero _ _ _ (by decide : cf_mask &&& 40 = 0),
        Nat.zero_or]
    exact mask_swallow _ _ _ (by decide)

set_option maxHeartbeats 1600000 in
/-- C1 (amended): from a state whose PC addresses an LDIR instruction
(bytes 0xED 0xB0) with BC = K > 0 and whose destination range does not
overlap the two instruction bytes, 2K steps perform exactly K memory
copies from (HL) to (DE), decrement BC to 0 and leave PC at the byte
after the LDIR; every non-final iteration adds the 5-tick exec cycle
and sets MEMPTR to the post-fetch PC plus one (the final one leaves it),
and each iteration but the last rewinds PC by 2 so PC only advances at
the end. -/
theorem C1_ldir (s : State) (K : Nat)
    (hpfx : s.pfx = Pfx.none) (hnext : s.next_index_rp = IndexRP.hl)
    (hpc : s.pc < 65536) (hhl : s.hl < 65536) (hde : s.de < 65536)
    (hbc : s.bc = K) (hK0 : 0 < K) (hK16 : K < 65536)
    (hED : s.mem s.pc = 237) (hB0 : s.mem ((s.pc + 1) % 65536) = 176)
    (hclob : ∀ i, i < K →
      (s.de + i) % 65536 ≠ s.pc ∧ (s.de + i) % 65536 ≠ (s.pc + 1) % 65536) :
    ∃ u, stepN (2 * K) s = some u ∧ u.bc = 0 ∧
      u.pc = (s.pc + 2) % 65536 ∧
      u.mem = ldirMem s.mem s.hl s.de K ∧
      u.hl = (s.hl + K) % 65536 ∧ u.de = (s.de + K) % 65536 ∧
      u.memptr = (if K = 1 then s.memptr else (s.pc + 3) % 65536) ∧
      u.ticks = s.ticks + 16 * K + 5 * (K - 1) := by
  obtain ⟨u, h1, _, _, hubc, huhl, hude, hupc, humem, hutk, humm⟩ :=
    ldir_run s K hpfx hnext hpc hhl hde hbc hK0 hK16 hED hB0 hclob K le_rfl
  refine ⟨u, h1, by omega, ?_, humm, huhl, hude, ?_, ?_⟩
  · rw [hupc, if_pos rfl]
  · rw [humem]
    by_cases hK1 : K = 1
    · rw [if_pos (by omega), if_pos hK1]
    · rw [if_neg (by omega), if_neg hK1]
  · rw [hutk, show min K (K - 1) = K - 1 from by omega]

/-- Witness for C1: LDIR at 0 with BC = 2, HL = 16, DE = 32. -/
theorem C1_ldir_witness :
    ∃ u, stepN (2 * 2) c1WitInit = some u ∧ u.bc = 0 ∧
      u.pc = (c1WitInit.pc + 2) % 65536 ∧
      u.mem = ldirMem c1WitInit.mem c1WitInit.hl c1WitInit.de 2 ∧
      u.hl = (c1WitInit.hl + 2) % 65536 ∧
      u.de = (c1WitInit.de + 2) % 65536 ∧
      u.memptr = (if (2 : Nat) = 1 then c1WitInit.memptr
                  else (c1WitInit.pc + 3) % 65536) ∧
      u.ticks = c1WitInit.ticks + 16 * 2 + 5 * (2 - 1) :=
  C1_ldir c1WitInit 2 rfl rfl (by decide) (by decide) (by decide) rfl
    (by decide) (by decide) rfl rfl (by decide)

/-- Counterexample to the unamended C1: with the destination overlapping
the instruction bytes (DE = PC = 0), the first copy overwrites the 0xED
opcode; after 2K = 4 steps the instruction has been left (PC = 2) but
BC is 1, not 0, and the second copy never happened (byte 1 still 0xB0).
-/
theorem C1_ldir_cex :
    (stepN 4 c1CexInit).map (fun u => (u.bc, u.pc, u.mem 1)) =
      some (1, 2, 176) := by rfl

/-- C2 (amended): EI and the FD prefix byte set `disable_int`; the DD
prefix byte aborts; and `disable_int`, once set, is never cleared by any
later successful step — there is no claimed clearing at the top of the
next step. -/
theorem C2_dint (s : State) :
    (s.pfx = Pfx.none → memRead s s.pc = 251 →
      ∃ t, step s = some t ∧ t.disable_int = true) ∧
    (s.pfx = Pfx.none → memRead s s.pc = 253 →
      ∃ t, step s = some t ∧ t.disable_int = true) ∧
    (s.pfx = Pfx.none → memRead s s.pc = 221 → step s = none) ∧
    (∀ t, step s = some t → s.disable_int = true → t.disable_int = true) := by
  refine ⟨?_, ?_, ?_, ?_⟩
  · intro hpfx hop
    exact ⟨_, step_ei_exec s hpfx hop, rfl⟩
  · intro hpfx hop
    exact ⟨_, step_fd_fetch s hpfx hop, rfl⟩
  · intro hpfx hop
    exact step_dd_abort s hpfx hop
  · intro t h hd
    exact (step_frame h).2.2.2.2 hd

/-- Witness for C2: EI at 0, FD at 0 and DD at 0. -/
theorem C2_dint_witness :
    (∃ t, step c2CexInit = some t ∧ t.disable_int = true) ∧
    (∃ t, step c4CexInit = some t ∧ t.disable_int = true) ∧
    step ddInit = none :=
  ⟨(C2_dint c2CexInit).1 rfl rfl, (C2_dint c4CexInit).2.1 rfl rfl,
   (C2_dint ddInit).2.2.1 rfl rfl⟩

/-- Counterexample to the unamended C2: after EI executes (step 1), the
subsequent step (a NOP) completes with `disable_int` still true — it is
not cleared at the top of that step. -/
theorem C2_dint_cex :
    (stepN 2 c2CexInit).map (fun u => u.disable_int) = some true := by rfl

/-- C3 (amended): in the ED decoding state the four decoded NONI slots
0x80, 0x88, 0x90 and 0x98 execute as no-ops beyond the fetch itself and
the decoder-state reset; the undefined ED slot 0x00 aborts instead of
being a NONI no-op. -/
theorem C3_noni (s : State) (hpfx : s.pfx = Pfx.ed) :
    ((memRead s s.pc = 128 ∨ memRead s s.pc = 136 ∨
      memRead s s.pc = 144 ∨ memRead s s.pc = 152) →
      step s = some { s with index_rp := s.next_index_rp,
                             next_index_rp := IndexRP.hl,
                             ticks := s.ticks + 4,
                             last_read_addr := s.pc % 65536,
                             pc := (s.pc + 1) % 65536, pfx := Pfx.none }) ∧
    (memRead s s.pc = 0 → step s = none) := by
  constructor
  · exact step_ed_noni s hpfx
  · intro hop
    rw [step_ed s hpfx, decode_ed_at]
    have h2 : memRead { s with index_rp := s.next_index_rp,
                               next_index_rp := IndexRP.hl }
        ({ s with index_rp := s.next_index_rp,
                  next_index_rp := IndexRP.hl } : State).pc = 0 := hop
    rw [h2]
    exact decode_ed_op_abort (by decide) (by decide) (by decide) (by decide)
      (by decide) _

/-- Witness for C3: ED 0x80 is a NONI no-op; ED 0x00 aborts. -/
theorem C3_noni_witness :
    step c3WitInit = some { c3WitInit with
        index_rp := c3WitInit.next_index_rp,
        next_index_rp := IndexRP.hl,
        ticks := c3WitInit.ticks + 4,
        last_read_addr := c3WitInit.pc % 65536,
        pc := (c3WitInit.pc + 1) % 65536, pfx := Pfx.none } ∧
    step { reset with pfx := Pfx.ed } = none :=
  ⟨(C3_noni c3WitInit rfl).1 (Or.inl rfl),
   (C3_noni { reset with pfx := Pfx.ed } rfl).2 rfl⟩

/-- Counterexample to the unamended C3: the undefined ED slot 0x00 does
not execute as a NONI no-op — the two-step sequence aborts. -/
theorem C3_noni_cex : stepN 2 c3CexInit = none := by rfl

/-- C4 (amended): after a step from an unprefixed state whose fetched
byte is neither 0xCB nor 0xFD, the pending index pair is HL, and the
instruction state is reset unless the byte was 0xCB or 0xED; after a
step that completes a prefixed instruction, both invariants hold
unconditionally. -/
theorem C4_next_irp {s t : State} (h : step s = some t) :
    (s.pfx = Pfx.none → memRead s s.pc ≠ 203 → memRead s s.pc ≠ 253 →
      t.next_index_rp = IndexRP.hl) ∧
    (s.pfx ≠ Pfx.none → t.next_index_rp = IndexRP.hl) ∧
    (s.pfx = Pfx.none → memRead s s.pc ≠ 203 → memRead s s.pc ≠ 237 →
      t.pfx = Pfx.none) ∧
    (s.pfx ≠ Pfx.none → t.pfx = Pfx.none) := by
  obtain ⟨h1, h2, h3, h4, _⟩ := step_frame h
  exact ⟨h1, h2, h3, h4⟩

/-- Witness for C4: a NOP step from reset keeps both invariants. -/
theorem C4_next_irp_witness :
    ∃ t, step reset = some t ∧ t.next_index_rp = IndexRP.hl ∧
      t.pfx = Pfx.none := by
  obtain ⟨t, ht⟩ : ∃ t, step reset = some t := ⟨_, rfl⟩
  exact ⟨t, ht, (C4_next_irp ht).1 rfl (by decide) (by decide),
         (C4_next_irp ht).2.2.1 rfl (by decide) (by decide)⟩

/-- Counterexample to the unamended C4: the second step of FD CB fetches
the byte 0xCB — not a DD/FD prefix — yet completes with the pending
index pair equal to IY, not HL. -/
theorem C4_next_irp_cex :
    (stepN 2 c4CexInit).map (fun u => (u.next_index_rp, u.pc)) =
      some (IndexRP.iy, 2) ∧ c4CexInit.mem 1 = 203 :=
  ⟨rfl, rfl⟩

/-- Counterexample to the unamended C5: CB 46 is BIT 0,(HL) — a plain
memory operand with no index prefix — yet the YX flags of the result
(40 = 0x28) come from the high byte of MEMPTR (0x28), not from the
tested byte, whose bits 5 and 3 are zero. -/
theorem C5_bit_cex :
    (stepN 2 c5CexInit).map
      (fun u => (get_f u &&& (yf_mask ||| xf_mask),
                 c5CexInit.mem 5 &&& (yf_mask ||| xf_mask),
                 get_high8 c5CexInit.memptr &&& (yf_mask ||| xf_mask))) =
      some (40, 0, 40) := by rfl

/-- C6 witness: CP with operand 5 from reset. -/
theorem C6_alu_yx_witness :
    ∃ t, do_alu Alu.cp 5 reset = some t ∧
      (get_f t &&& (yf_mask ||| xf_mask) = 5 &&& (yf_mask ||| xf_mask) ∧
       get_a t = get_a reset ∧ get_f t &&& nf_mask = nf_mask) := by
  obtain ⟨t, ht⟩ : ∃ t, do_alu Alu.cp 5 reset = some t := ⟨_, rfl⟩
  exact ⟨t, ht, (C6_alu_yx Alu.cp 5 reset t ht).2 rfl⟩

/-- C7: the spec's scenario 5 — LD HL,0x8000; ADD HL,HL from reset —
executed for two steps leaves HL = 0 and MEMPTR = 0x8001 with 21 ticks,
but F stays 0: in particular the C flag is NOT set, because
`on_add_irp_rp` computes the new flags into a local and never stores
them. -/
theorem C7_add_irp :
    (stepN 2 c7Init).map
      (fun u => (get_hl16 u, u.memptr, get_f u, u.ticks)) =
      some (0, 32769, 0, 21) := by rfl

/-- C9 witness: a read and a write through (IX-2) with IX = 4096. -/
theorem C9_memptr_witness :
    (read_at_disp { reset with index_rp := IndexRP.ix, ix := 4096 } 254
        false).2.memptr =
      (effAddr (on_get_index_rp
        { reset with index_rp := IndexRP.ix, ix := 4096 }) 254).toNat ∧
    (write_at_disp { reset with index_rp := IndexRP.ix, ix := 4096 } 254
        9).memptr =
      (effAddr (on_get_index_rp
        { reset with index_rp := IndexRP.ix, ix := 4096 }) 254).toNat :=
  (C9_memptr { reset with index_rp := IndexRP.ix, ix := 4096 } 254 9 false
    (by decide)).1 (by decide)

/-- C10 witness: pushing 0x1234 at SP = 100 and popping it back. -/
theorem C10_push_pop_witness :
    (on_push 4660 { reset with sp := 100 }).sp = (100 + 65534) % 65536 ∧
    (on_push 4660 { reset with sp := 100 }).mem ((100 + 65535) % 65536) =
      get_high8 4660 ∧
    (on_push 4660 { reset with sp := 100 }).mem ((100 + 65534) % 65536) =
      get_low8 4660 ∧
    (100 + 65535) % 65536 ≠ (100 + 65534) % 65536 ∧
    (on_pop (on_push 4660 { reset with sp := 100 })).1 = 4660 ∧
    (on_pop (on_push 4660 { reset with sp := 100 })).2.sp = 100 :=
  C10_push_pop { reset with sp := 100 } 4660 (by decide) (by decide)

end Z80
